import Mathlib

set_option maxRecDepth 100000

/-!
Shallow embedding of the `particles` repository (a falling-sand thermal-cycle
simulation) and proofs about its grid physics, zone components, lift conveyor
and simulation tick.

Conventions of the embedding:
* Python `int` coordinates and temperatures become `Int`; frame counters become
  `Nat`.
* The mutable `Grid` object becomes a structure that is threaded through every
  operation; a Python method that mutates the grid and returns a value becomes a
  Lean function returning a pair.
* Python object identity (`id(particle)`, used as the key of
  `Grid.psg_speed_counter`) is modelled by an explicit `pid` field on
  `Particle`; the ad hoc `_just_entered_lift` attribute set and deleted by
  `lift.py` is modelled by a `Bool` field that is `false` exactly when the
  attribute is absent (the source only ever sets it to `True` or deletes it).
* Calls to `random.choice` / `random.randint` are modelled by oracle arguments:
  `random.choice(directions)` becomes indexing by `choice % directions.length`,
  and `random.randint(a, b)` becomes `a + draw % (b - a + 1)`, so that the set
  of behaviours of the embedding over all oracle values is exactly the support
  of the randomized program.
* `cell_size` and all pygame drawing code are presentation-only and omitted.
-/

/-- `particle.py`: a sand particle.  Position mirrors the grid cell, scalar
temperature, thermal-loss bookkeeping.  `pid` models Python object identity and
`just_entered_lift` models the dynamically attached `_just_entered_lift`
attribute (absent ↦ `false`). -/
structure Particle where
  pid : Nat
  x : Int
  y : Int
  temperature : Int := 0
  max_temperature : Int := 500
  last_thermal_loss_frame : Nat := 0
  thermal_loss_interval : Nat := 10
  just_entered_lift : Bool := false
  deriving DecidableEq, Repr

/-- `Particle.heat`: increase temperature, capped at `max_temperature`. -/
def Particle.heat (p : Particle) (amount : Int) : Particle :=
  { p with temperature := min (p.temperature + amount) p.max_temperature }

/-- `Particle.cool`: decrease temperature, floored at 0. -/
def Particle.cool (p : Particle) (amount : Int) : Particle :=
  { p with temperature := max 0 (p.temperature - amount) }

/-- `Particle.apply_thermal_loss`: cool by `loss_amount` and record the frame,
but only when at least `thermal_loss_interval` frames have passed since the
last application. -/
def Particle.apply_thermal_loss (p : Particle) (loss_amount : Int)
    (current_frame : Nat) : Particle :=
  if (p.thermal_loss_interval : Int) ≤ (current_frame : Int) - (p.last_thermal_loss_frame : Int) then
    { (p.cool loss_amount) with last_thermal_loss_frame := current_frame }
  else
    p

/-- `Particle.move_to`: update the stored position. -/
def Particle.move_to (p : Particle) (new_x new_y : Int) : Particle :=
  { p with x := new_x, y := new_y }

/-- Lookup in the `psg_speed_counter` dictionary (keyed by particle identity). -/
def lookupCounter (m : List (Nat × Nat)) (k : Nat) : Option Nat :=
  (m.find? (fun kv => kv.1 == k)).map (fun kv => kv.2)

/-- Write a key in the `psg_speed_counter` dictionary. -/
def setCounter (m : List (Nat × Nat)) (k v : Nat) : List (Nat × Nat) :=
  if (m.find? (fun kv => kv.1 == k)).isSome then
    m.map (fun kv => if kv.1 == k then (k, v) else kv)
  else
    m ++ [(k, v)]

/-- `del d[k]` on the `psg_speed_counter` dictionary (no-op when absent, which
matches the `if particle_id in ...` guards in the source). -/
def delCounter (m : List (Nat × Nat)) (k : Nat) : List (Nat × Nat) :=
  m.filter (fun kv => kv.1 != k)

/-- Python `range(a, b)` over integers. -/
def intRange (a b : Int) : List Int :=
  (List.range (b - a).toNat).map (fun i : Nat => a + (i : Int))

/-- `grid.py`: the 2D cell array (row-major, `cells[y][x]`), at most one
particle per cell by construction, plus the per-particle PSG speed counters. -/
structure Grid where
  width : Int
  height : Int
  cells : List (List (Option Particle))
  psg_speed_counter : List (Nat × Nat) := []
  deriving DecidableEq, Repr

/-- `Grid.__init__`: an empty `width × height` grid. -/
def Grid.make (width height : Int) : Grid :=
  { width := width, height := height,
    cells := List.replicate height.toNat (List.replicate width.toNat none) }

/-- `Grid.is_valid_position`. -/
def Grid.is_valid_position (g : Grid) (x y : Int) : Bool :=
  decide (0 ≤ x ∧ x < g.width ∧ 0 ≤ y ∧ y < g.height)

/-- Raw `self.grid[y][x]` access.  In the source every such access is guarded
by `is_valid_position`, so the `getD` defaults are never observed on
well-formed grids. -/
def Grid.cellAt (g : Grid) (x y : Int) : Option Particle :=
  (g.cells.getD y.toNat []).getD x.toNat none

/-- Raw `self.grid[y][x] = v` assignment. -/
def Grid.setCell (g : Grid) (x y : Int) (v : Option Particle) : Grid :=
  { g with cells := g.cells.set y.toNat ((g.cells.getD y.toNat []).set x.toNat v) }

/-- `Grid.is_empty`. -/
def Grid.is_empty (g : Grid) (x y : Int) : Bool :=
  if g.is_valid_position x y then (g.cellAt x y).isNone else false

/-- `Grid.place_particle`: place at (x, y) whenever the position is in bounds
(the source does not check occupancy). -/
def Grid.place_particle (g : Grid) (particle : Particle) (x y : Int) :
    Grid × Bool :=
  if g.is_valid_position x y then
    (g.setCell x y (some (particle.move_to x y)), true)
  else
    (g, false)

/-- `Grid.remove_particle`. -/
def Grid.remove_particle (g : Grid) (x y : Int) : Grid × Option Particle :=
  if g.is_valid_position x y then
    let particle := g.cellAt x y
    let g1 := g.setCell x y none
    match particle with
    | some p =>
        ({ g1 with psg_speed_counter := delCounter g1.psg_speed_counter p.pid }, some p)
    | none => (g1, none)
  else
    (g, none)

/-- `Grid.get_particle`. -/
def Grid.get_particle (g : Grid) (x y : Int) : Option Particle :=
  if g.is_valid_position x y then g.cellAt x y else none

/-- `Grid.move_particle`: the unique relocation primitive. -/
def Grid.move_particle (g : Grid) (from_x from_y to_x to_y : Int) :
    Grid × Bool :=
  if !(g.is_valid_position from_x from_y) || !(g.is_valid_position to_x to_y) then
    (g, false)
  else
    match g.cellAt from_x from_y, g.cellAt to_x to_y with
    | none, _ => (g, false)
    | some _, some _ => (g, false)
    | some particle, none =>
        ((g.setCell from_x from_y none).setCell to_x to_y
          (some (particle.move_to to_x to_y)), true)

/-- `receiver.py`: the heating zone. -/
structure Receiver where
  width : Int := 10
  height : Int := 1
  grid_width : Int
  grid_height : Int
  x : Int
  y : Int := 22
  heating_rate : Int := 500
  heating_interval : Nat := 1
  frame_counter : Nat := 0
  total_heat_added : Int := 0
  deriving DecidableEq, Repr

/-- `Receiver.__init__`. -/
def Receiver.make (grid_width grid_height : Int) : Receiver :=
  { grid_width := grid_width, grid_height := grid_height,
    x := (grid_width - 10) / 2 }

/-- `Receiver.is_inside`. -/
def Receiver.is_inside (r : Receiver) (x y : Int) : Bool :=
  decide (r.x ≤ x ∧ x < r.x + r.width ∧ r.y ≤ y ∧ y < r.y + r.height)

/-- `hotbin.py`: passive container with a toggling floor opening. -/
structure HotBin where
  width : Int
  height : Int := 8
  thickness : Int := 1
  x : Int
  y : Int
  is_open : Bool := false
  opening_width : Int := 3
  opening_start_x : Int
  opening_end_x : Int
  floor_y : Int
  deriving DecidableEq, Repr

/-- `HotBin.__init__` (all divisions have nonnegative operands, so Python
floor division agrees with `Int` division here). -/
def HotBin.make (receiver_x receiver_y receiver_width : Int) : HotBin :=
  let width := receiver_width + 6
  let x := max 0 (receiver_x - (width - receiver_width) / 2)
  let y := receiver_y + 8
  { width := width, x := x, y := y,
    opening_start_x := x + (width - 3) / 2,
    opening_end_x := x + (width - 3) / 2 + 3,
    floor_y := y + 8 - 1 }

/-- `HotBin.open_bin`. -/
def HotBin.open_bin (b : HotBin) : HotBin := { b with is_open := true }

/-- `HotBin.close_bin`. -/
def HotBin.close_bin (b : HotBin) : HotBin := { b with is_open := false }

/-- `HotBin.is_wall`: left wall, right wall and the bottom wall minus the
opening while open. -/
def HotBin.is_wall (b : HotBin) (x y : Int) : Bool :=
  if b.x ≤ x ∧ x < b.x + b.thickness ∧ b.y ≤ y ∧ y < b.y + b.height then
    true
  else if b.x + b.width - b.thickness ≤ x ∧ x < b.x + b.width ∧
      b.y ≤ y ∧ y < b.y + b.height then
    true
  else if b.x ≤ x ∧ x < b.x + b.width ∧
      b.y + b.height - b.thickness ≤ y ∧ y < b.y + b.height then
    if b.is_open ∧ b.opening_start_x ≤ x ∧ x < b.opening_end_x then false
    else true
  else
    false

/-- `HotBin.is_inside`. -/
def HotBin.is_inside (b : HotBin) (x y : Int) : Bool :=
  decide (b.x + b.thickness - 1 < x ∧ x < b.x + b.width - b.thickness ∧
    b.y ≤ y ∧ y < b.y + b.height - b.thickness)

/-- Modelled from the spec: `coldbin.py` is imported by `simulation.py` but is
not part of the provided sources.  Per the spec, "HotBin / ColdBin: passive
containers with solid walls except a centered floor opening that toggles
open/closed on a fixed-duration timer", so the ColdBin is modelled with exactly
the HotBin geometry and predicates, constructed from the PSG geometry as in
`Simulation.__init__` (`ColdBin(psg.x, psg.y, psg.width)`). -/
structure ColdBin where
  width : Int
  height : Int := 8
  thickness : Int := 1
  x : Int
  y : Int
  is_open : Bool := false
  opening_width : Int := 3
  opening_start_x : Int
  opening_end_x : Int
  floor_y : Int
  deriving DecidableEq, Repr

/-- Modelled from the spec: ColdBin constructor, HotBin-symmetric. -/
def ColdBin.make (psg_x psg_y psg_width : Int) : ColdBin :=
  let width := psg_width + 6
  let x := max 0 (psg_x - (width - psg_width) / 2)
  let y := psg_y + 8
  { width := width, x := x, y := y,
    opening_start_x := x + (width - 3) / 2,
    opening_end_x := x + (width - 3) / 2 + 3,
    floor_y := y + 8 - 1 }

/-- Modelled from the spec: ColdBin open toggle. -/
def ColdBin.open_bin (b : ColdBin) : ColdBin := { b with is_open := true }

/-- Modelled from the spec: ColdBin close toggle. -/
def ColdBin.close_bin (b : ColdBin) : ColdBin := { b with is_open := false }

/-- Modelled from the spec: ColdBin walls, HotBin-symmetric. -/
def ColdBin.is_wall (b : ColdBin) (x y : Int) : Bool :=
  if b.x ≤ x ∧ x < b.x + b.thickness ∧ b.y ≤ y ∧ y < b.y + b.height then
    true
  else if b.x + b.width - b.thickness ≤ x ∧ x < b.x + b.width ∧
      b.y ≤ y ∧ y < b.y + b.height then
    true
  else if b.x ≤ x ∧ x < b.x + b.width ∧
      b.y + b.height - b.thickness ≤ y ∧ y < b.y + b.height then
    if b.is_open ∧ b.opening_start_x ≤ x ∧ x < b.opening_end_x then false
    else true
  else
    false

/-- Modelled from the spec: ColdBin interior, HotBin-symmetric. -/
def ColdBin.is_inside (b : ColdBin) (x y : Int) : Bool :=
  decide (b.x + b.thickness - 1 < x ∧ x < b.x + b.width - b.thickness ∧
    b.y ≤ y ∧ y < b.y + b.height - b.thickness)

/-- `psg.py`: the cooling stage, whose footprint is also the slow zone. -/
structure PSG where
  width : Int
  height : Int := 5
  x : Int
  y : Int
  cooling_rate : Int := 20
  cooling_interval : Nat := 1
  frame_counter : Nat := 0
  total_heat_extracted : Int := 0
  slow_factor : Nat := 5
  deriving DecidableEq, Repr

/-- `PSG.__init__`. -/
def PSG.make (hotbin_x hotbin_y hotbin_width : Int) : PSG :=
  { width := hotbin_width,
    x := hotbin_x + (hotbin_width - hotbin_width) / 2,
    y := hotbin_y + 8 + 6 }

/-- `PSG.is_inside`. -/
def PSG.is_inside (p : PSG) (x y : Int) : Bool :=
  decide (p.x ≤ x ∧ x < p.x + p.width ∧ p.y ≤ y ∧ y < p.y + p.height)

/-- `PSG.should_particle_move_slow`. -/
def PSG.should_particle_move_slow (p : PSG) (x y : Int) : Bool :=
  p.is_inside x y

/-- `separator.py`: the U-shaped redistribution channel. -/
structure Separator where
  width : Int
  height : Int := 3
  thickness : Int := 1
  x : Int
  y : Int
  left_wall_x : Int
  right_wall_x : Int
  bottom_y : Int
  distribution_start_x : Int
  distribution_end_x : Int
  distribution_width : Int
  deriving DecidableEq, Repr

/-- `Separator.__init__`. -/
def Separator.make (receiver_x receiver_y receiver_width : Int) : Separator :=
  let width := receiver_width
  let x := max 0 (receiver_x - (width - receiver_width) / 2)
  let y := receiver_y - 10
  { width := width, x := x, y := y,
    left_wall_x := x,
    right_wall_x := x + width - 1,
    bottom_y := y + 3 - 1,
    distribution_start_x := x + 1,
    distribution_end_x := x + width - 1,
    distribution_width := (x + width - 1) - (x + 1) }

/-- `Separator.is_wall`: the two side walls and the channel floor. -/
def Separator.is_wall (s : Separator) (x y : Int) : Bool :=
  if s.left_wall_x ≤ x ∧ x < s.left_wall_x + s.thickness ∧
      s.y ≤ y ∧ y < s.y + s.height then
    true
  else if s.right_wall_x ≤ x ∧ x < s.right_wall_x + s.thickness ∧
      s.y ≤ y ∧ y < s.y + s.height then
    true
  else if s.x ≤ x ∧ x < s.x + s.width ∧
      s.bottom_y ≤ y ∧ y < s.bottom_y + s.thickness then
    true
  else
    false

/-- `Separator.is_inside`: the redistribution interior. -/
def Separator.is_inside (s : Separator) (x y : Int) : Bool :=
  decide (s.distribution_start_x ≤ x ∧ x < s.distribution_end_x ∧
    s.y ≤ y ∧ y < s.bottom_y)

/-- `Separator.can_enter_separator`: the entry strip one row above the top. -/
def Separator.can_enter_separator (s : Separator) (x y : Int) : Bool :=
  decide (y = s.y - 1 ∧ s.distribution_start_x ≤ x ∧ x < s.distribution_end_x)

/-- Modelled from the spec: `ColdBin.get_bin_bounds`, HotBin-symmetric
(`hotbin.py` returns left/right/top/bottom and the inner rectangle). -/
def ColdBin.bounds_left (b : ColdBin) : Int := b.x

/-- Modelled from the spec: right edge of the cold bin. -/
def ColdBin.bounds_right (b : ColdBin) : Int := b.x + b.width

/-- Modelled from the spec: inner bottom of the cold bin. -/
def ColdBin.bounds_inner_bottom (b : ColdBin) : Int := b.y + b.height - b.thickness

/-- `lift.py`: the five-segment conveyor.  `lift_speed_inv` models
`max(1, int(1 / self.lift_speed))` for the float `lift_speed = 0.3`, i.e. 3:
the update only moves particles on every third call. -/
structure Lift where
  shaft_width : Int := 5
  cb_shaft_x : Int
  cb_shaft_y : Int
  cb_shaft_height : Int := 5
  cb_hz_shaft_x : Int
  cb_hz_shaft_y : Int
  cb_hz_shaft_length : Int
  main_shaft_x : Int
  main_shaft_y : Int
  main_shaft_height : Int
  rcv_hz_shaft_x : Int
  rcv_hz_shaft_y : Int
  rcv_hz_shaft_length : Int
  rcv_vt_shaft_x : Int
  rcv_vt_shaft_y : Int
  rcv_vt_shaft_height : Int := 5
  lift_speed_inv : Nat := 3
  frame_counter : Nat := 0
  particles_entered : Nat := 0
  particles_exited : Nat := 0
  deriving DecidableEq, Repr

/-- `Lift.__init__`, fed by the cold-bin bounds and the receiver height. -/
def Lift.make (coldbin : ColdBin) (receiver_y : Int) : Lift :=
  let cb_shaft_x := coldbin.opening_start_x
  let cb_shaft_y := coldbin.bounds_inner_bottom
  let cb_hz_shaft_x := cb_shaft_x
  let cb_hz_shaft_y := cb_shaft_y + 5
  let cb_hz_shaft_length := coldbin.bounds_right - coldbin.bounds_left
  let main_shaft_x := cb_hz_shaft_x + cb_hz_shaft_length
  let main_shaft_y := receiver_y - 15
  { cb_shaft_x := cb_shaft_x, cb_shaft_y := cb_shaft_y,
    cb_hz_shaft_x := cb_hz_shaft_x, cb_hz_shaft_y := cb_hz_shaft_y,
    cb_hz_shaft_length := cb_hz_shaft_length,
    main_shaft_x := main_shaft_x, main_shaft_y := main_shaft_y,
    main_shaft_height := cb_hz_shaft_y + 5 - main_shaft_y,
    rcv_hz_shaft_x := cb_shaft_x, rcv_hz_shaft_y := main_shaft_y,
    rcv_hz_shaft_length := main_shaft_x - cb_shaft_x,
    rcv_vt_shaft_x := cb_shaft_x, rcv_vt_shaft_y := main_shaft_y + 5 }

/-- `Lift.is_inside_cb_vertical`. -/
def Lift.is_inside_cb_vertical (l : Lift) (x y : Int) : Bool :=
  decide (l.cb_shaft_x ≤ x ∧ x < l.cb_shaft_x + l.shaft_width ∧
    l.cb_shaft_y ≤ y ∧ y < l.cb_shaft_y + l.cb_shaft_height)

/-- `Lift.is_inside_cb_horizontal`. -/
def Lift.is_inside_cb_horizontal (l : Lift) (x y : Int) : Bool :=
  decide (l.cb_hz_shaft_x ≤ x ∧ x < l.cb_hz_shaft_x + l.cb_hz_shaft_length ∧
    l.cb_hz_shaft_y ≤ y ∧ y < l.cb_hz_shaft_y + l.shaft_width)

/-- `Lift.is_inside_main_vertical`. -/
def Lift.is_inside_main_vertical (l : Lift) (x y : Int) : Bool :=
  decide (l.main_shaft_x ≤ x ∧ x < l.main_shaft_x + l.shaft_width ∧
    l.main_shaft_y ≤ y ∧ y < l.main_shaft_y + l.main_shaft_height)

/-- `Lift.is_inside_rcv_horizontal`. -/
def Lift.is_inside_rcv_horizontal (l : Lift) (x y : Int) : Bool :=
  decide (l.rcv_hz_shaft_x ≤ x ∧ x < l.rcv_hz_shaft_x + l.rcv_hz_shaft_length ∧
    l.rcv_hz_shaft_y ≤ y ∧ y < l.rcv_hz_shaft_y + l.shaft_width)

/-- `Lift.is_inside_rcv_vertical`. -/
def Lift.is_inside_rcv_vertical (l : Lift) (x y : Int) : Bool :=
  decide (l.rcv_vt_shaft_x ≤ x ∧ x < l.rcv_vt_shaft_x + l.shaft_width ∧
    l.rcv_vt_shaft_y ≤ y ∧ y < l.rcv_vt_shaft_y + l.rcv_vt_shaft_height)

/-- `Lift.is_inside_lift`: union of the five segments. -/
def Lift.is_inside_lift (l : Lift) (x y : Int) : Bool :=
  l.is_inside_cb_vertical x y || l.is_inside_cb_horizontal x y ||
  l.is_inside_main_vertical x y || l.is_inside_rcv_horizontal x y ||
  l.is_inside_rcv_vertical x y

/-- `Lift.get_entry_position`: the top of the cold-bin vertical shaft. -/
def Lift.get_entry_position (l : Lift) : Int × Int := (l.cb_shaft_x, l.cb_shaft_y)

/-- `Lift.can_enter_lift`: the 5-wide entry strip. -/
def Lift.can_enter_lift (l : Lift) (x y : Int) : Bool :=
  decide (l.cb_shaft_x ≤ x ∧ x < l.cb_shaft_x + l.shaft_width ∧ y = l.cb_shaft_y)

/-- The five lift segments. -/
inductive SegName where
  | cb_vertical
  | cb_horizontal
  | main_vertical
  | rcv_horizontal
  | rcv_vertical
  deriving DecidableEq, Repr

/-- `Lift._get_next_positions`: candidate cells along the segment axis plus the
lane-preserving hand-off (with the alternate-lane fallbacks) at segment ends. -/
def Lift.get_next_positions (l : Lift) (x y : Int) (segment : SegName) :
    List (Int × Int) :=
  match segment with
  | .cb_vertical =>
      if y < l.cb_shaft_y + l.cb_shaft_height - 1 then
        [(x, y + 1)]
      else
        let horizontal_x := l.cb_hz_shaft_x + (x - l.cb_shaft_x)
        if l.cb_hz_shaft_x ≤ horizontal_x ∧
            horizontal_x < l.cb_hz_shaft_x + min l.cb_hz_shaft_length l.shaft_width then
          [(horizontal_x, l.cb_hz_shaft_y)]
        else
          (List.range (min l.cb_hz_shaft_length l.shaft_width).toNat).map
            (fun offset : Nat => (l.cb_hz_shaft_x + (offset : Int), l.cb_hz_shaft_y))
  | .cb_horizontal =>
      if x < l.cb_hz_shaft_x + l.cb_hz_shaft_length - 1 then
        [(x + 1, y)]
      else
        let main_x := l.main_shaft_x + (y - l.cb_hz_shaft_y)
        if l.main_shaft_x ≤ main_x ∧ main_x < l.main_shaft_x + l.shaft_width then
          [(main_x, l.main_shaft_y + l.main_shaft_height - 1)]
        else
          (List.range l.shaft_width.toNat).map
            (fun offset : Nat => (l.main_shaft_x + (offset : Int),
              l.main_shaft_y + l.main_shaft_height - 1))
  | .main_vertical =>
      if y > l.main_shaft_y then
        [(x, y - 1)]
      else
        let horizontal_y := l.rcv_hz_shaft_y + (x - l.main_shaft_x)
        if l.rcv_hz_shaft_y ≤ horizontal_y ∧
            horizontal_y < l.rcv_hz_shaft_y + l.shaft_width then
          [(l.rcv_hz_shaft_x + l.rcv_hz_shaft_length - 1, horizontal_y)]
        else
          (List.range l.shaft_width.toNat).map
            (fun offset : Nat => (l.rcv_hz_shaft_x + l.rcv_hz_shaft_length - 1,
              l.rcv_hz_shaft_y + (offset : Int)))
  | .rcv_horizontal =>
      if x > l.rcv_hz_shaft_x then
        [(x - 1, y)]
      else
        let vertical_x := l.rcv_vt_shaft_x + (y - l.rcv_hz_shaft_y)
        if l.rcv_vt_shaft_x ≤ vertical_x ∧
            vertical_x < l.rcv_vt_shaft_x + l.shaft_width then
          [(vertical_x, l.rcv_vt_shaft_y)]
        else
          (List.range l.shaft_width.toNat).map
            (fun offset : Nat => (l.rcv_vt_shaft_x + (offset : Int), l.rcv_vt_shaft_y))
  | .rcv_vertical =>
      [(x, y + 1)]

/-- `Lift._get_exit_positions`: lateral nudge candidates below a blocked exit
(center, left, right). -/
def Lift.get_exit_positions (x y : Int) : List (Int × Int) :=
  [(x, y + 1), (x - 1, y + 1), (x + 1, y + 1)]

/-- `Grid.should_particle_move_slowly`: when the PSG zone covers (x, y) the
per-particle counter is incremented and movement is allowed only when it is a
multiple of the slow factor; otherwise the particle's counter entry is cleaned
up.  (The source is only invoked when a PSG is passed; the `none` case mirrors
the explicit `psg=None` default.) -/
def Grid.should_particle_move_slowly (g : Grid) (x y : Int) (psg : Option PSG) :
    Grid × Bool :=
  match psg with
  | some p =>
      if p.should_particle_move_slow x y then
        match g.get_particle x y with
        | some particle =>
            let c1 := (lookupCounter g.psg_speed_counter particle.pid).getD 0 + 1
            ({ g with psg_speed_counter := setCounter g.psg_speed_counter particle.pid c1 },
              c1 % p.slow_factor == 0)
        | none => (g, true)
      else
        match g.get_particle x y with
        | some particle =>
            ({ g with psg_speed_counter := delCounter g.psg_speed_counter particle.pid },
              true)
        | none => (g, true)
  | none =>
      match g.get_particle x y with
      | some particle =>
          ({ g with psg_speed_counter := delCounter g.psg_speed_counter particle.pid },
            true)
      | none => (g, true)

/-- `Grid.update_particle`: single-particle gravity with diagonal fallback,
deferring to lift and separator footprints, blocked by zone walls unless a
special entry permission applies.  `choice` is the `random.choice` oracle for
the diagonal tie-break. -/
def Grid.update_particle (g : Grid) (x y : Int) (hotbin : Option HotBin)
    (coldbin : Option ColdBin) (lift : Option Lift) (separator : Option Separator)
    (psg : Option PSG) (choice : Nat) : Grid × Bool :=
  if !(g.is_valid_position x y) || (g.cellAt x y).isNone then
    (g, false)
  else
    -- `if psg and not self.should_particle_move_slowly(x, y, psg)`: the check
    -- (with its counter side effects) only runs when a PSG is passed.
    let slow := match psg with
      | some _ => g.should_particle_move_slowly x y psg
      | none => (g, true)
    let g := slow.1
    if !slow.2 then
      (g, false)
    else if (match lift with | some l => l.is_inside_lift x y | none => false) then
      (g, false)
    else if (match separator with | some s => s.is_inside x y | none => false) then
      (g, false)
    else
      let target_y := y + 1
      let can_enter_lift := match lift with
        | some l =>
            l.is_inside_lift x target_y &&
              decide (target_y = l.cb_shaft_y ∧
                l.cb_shaft_x ≤ x ∧ x < l.cb_shaft_x + l.shaft_width)
        | none => false
      let can_enter_separator := match separator with
        | some s => s.can_enter_separator x target_y
        | none => false
      if decide (target_y < g.height) && g.is_empty x target_y &&
          (match hotbin with | none => true | some hb => !hb.is_wall x target_y) &&
          (match coldbin with | none => true | some cb => !cb.is_wall x target_y) &&
          (match separator with
            | none => true
            | some s => !s.is_wall x target_y || can_enter_separator) &&
          (match lift with
            | none => true
            | some l => !l.is_inside_lift x target_y || can_enter_lift) then
        g.move_particle x y x target_y
      else
        let can_enter_lift_left := match lift with
          | some l =>
              l.is_inside_lift (x - 1) target_y &&
                decide (target_y = l.cb_shaft_y ∧
                  l.cb_shaft_x ≤ x - 1 ∧ x - 1 < l.cb_shaft_x + l.shaft_width)
          | none => false
        let can_enter_separator_left := match separator with
          | some s => s.can_enter_separator (x - 1) target_y
          | none => false
        let left_open := decide (0 < x) && decide (target_y < g.height) &&
          g.is_empty (x - 1) target_y &&
          (match hotbin with | none => true | some hb => !hb.is_wall (x - 1) target_y) &&
          (match coldbin with | none => true | some cb => !cb.is_wall (x - 1) target_y) &&
          (match separator with
            | none => true
            | some s => !s.is_wall (x - 1) target_y || can_enter_separator_left) &&
          (match lift with
            | none => true
            | some l => !l.is_inside_lift (x - 1) target_y || can_enter_lift_left)
        let can_enter_lift_right := match lift with
          | some l =>
              l.is_inside_lift (x + 1) target_y &&
                decide (target_y = l.cb_shaft_y ∧
                  l.cb_shaft_x ≤ x + 1 ∧ x + 1 < l.cb_shaft_x + l.shaft_width)
          | none => false
        let can_enter_separator_right := match separator with
          | some s => s.can_enter_separator (x + 1) target_y
          | none => false
        let right_open := decide (x < g.width - 1) && decide (target_y < g.height) &&
          g.is_empty (x + 1) target_y &&
          (match hotbin with | none => true | some hb => !hb.is_wall (x + 1) target_y) &&
          (match coldbin with | none => true | some cb => !cb.is_wall (x + 1) target_y) &&
          (match separator with
            | none => true
            | some s => !s.is_wall (x + 1) target_y || can_enter_separator_right) &&
          (match lift with
            | none => true
            | some l => !l.is_inside_lift (x + 1) target_y || can_enter_lift_right)
        let directions : List Int :=
          (if left_open then [-1] else []) ++ (if right_open then [1] else [])
        match directions with
        | [] => (g, false)
        | ds => g.move_particle x y (x + ds.getD (choice % ds.length) 0) target_y

/-- `Receiver.update_particles_in_receiver`: heat every resident particle,
capped per tick and at `max_temperature`, accumulating `total_heat_added`. -/
def Receiver.update_particles_in_receiver (r : Receiver) (g : Grid) :
    Receiver × Grid :=
  let r := { r with frame_counter := r.frame_counter + 1 }
  if r.frame_counter % r.heating_interval != 0 then
    (r, g)
  else
    (intRange r.y (r.y + r.height)).foldl (fun st y =>
      (intRange r.x (r.x + r.width)).foldl (fun (st : Receiver × Grid) x =>
        match st.2.get_particle x y with
        | some particle =>
            if st.1.is_inside x y then
              let heat_to_add :=
                min st.1.heating_rate (particle.max_temperature - particle.temperature)
              ({ st.1 with total_heat_added := st.1.total_heat_added + heat_to_add },
                st.2.setCell x y (some { particle with
                  temperature := min particle.max_temperature
                    (particle.temperature + heat_to_add) }))
            else st
        | none => st) st) (r, g)

/-- `PSG.update_particles_in_psg`: cool every resident particle, floored at 0,
accumulating `total_heat_extracted`. -/
def PSG.update_particles_in_psg (p : PSG) (g : Grid) : PSG × Grid :=
  let p := { p with frame_counter := p.frame_counter + 1 }
  if p.frame_counter % p.cooling_interval != 0 then
    (p, g)
  else
    (intRange p.y (p.y + p.height)).foldl (fun st y =>
      (intRange p.x (p.x + p.width)).foldl (fun (st : PSG × Grid) x =>
        match st.2.get_particle x y with
        | some particle =>
            if st.1.is_inside x y then
              let heat_to_remove := min st.1.cooling_rate particle.temperature
              ({ st.1 with total_heat_extracted := st.1.total_heat_extracted + heat_to_remove },
                st.2.setCell x y (some { particle with
                  temperature := max 0 (particle.temperature - heat_to_remove) }))
            else st
        | none => st) st) (p, g)

/-- The bounded rejection-sampling loop of `Separator.separate_particle`:
`fuel` counts the remaining attempts (initially `max_attempts =
distribution_width`), `i` indexes the oracle; `random.randint(start, end - 1)`
is modelled as `start + draws i % distribution_width`. -/
def sepTryRandom (s : Separator) (g : Grid) (draws : Nat → Nat) (exit_y : Int) :
    Nat → Nat → Option Int
  | _, 0 => none
  | i, fuel + 1 =>
      let new_x : Int :=
        s.distribution_start_x + Int.ofNat (draws i % s.distribution_width.toNat)
      if g.is_valid_position new_x exit_y && g.is_empty new_x exit_y then
        some new_x
      else
        sepTryRandom s g draws exit_y (i + 1) fuel

/-- The sequential fallback scan of `Separator.separate_particle`: first free
exit column in order. -/
def Separator.sequential_scan (s : Separator) (g : Grid) (exit_y : Int) :
    Option Int :=
  ((List.range s.distribution_width.toNat).map
    (fun o : Nat => s.distribution_start_x + (o : Int))).find?
    (fun nx => g.is_valid_position nx exit_y && g.is_empty nx exit_y)

/-- `Separator.separate_particle`: pick a free exit cell in the row directly
below the channel floor, by bounded random attempts then a sequential scan;
`none` when every exit column is blocked ("particle waits"). -/
def Separator.separate_particle (s : Separator) (g : Grid) (draws : Nat → Nat) :
    Option (Int × Int) :=
  let exit_y := s.bottom_y + s.thickness
  match sepTryRandom s g draws exit_y 0 s.distribution_width.toNat with
  | some nx => some (nx, exit_y)
  | none =>
      match s.sequential_scan g exit_y with
      | some nx => some (nx, exit_y)
      | none => none

/-- The resident scan of `Separator.update_particles_in_separator` (the
particle reference in the collected triple is unused by the source, so only
the coordinates are kept). -/
def Separator.residents (s : Separator) (g : Grid) : List (Int × Int) :=
  (intRange s.y (s.bottom_y + s.thickness)).foldl (fun acc y =>
    (intRange s.distribution_start_x s.distribution_end_x).foldl
      (fun (acc : List (Int × Int)) x =>
        match g.get_particle x y with
        | some _ => if s.is_inside x y then acc ++ [(x, y)] else acc
        | none => acc) acc) []

/-- `Separator.update_particles_in_separator`: collect the residents of the
interior, then relocate each in turn.  `rng i` is the oracle for the i-th
processed particle. -/
def Separator.update_particles_in_separator (s : Separator) (g : Grid)
    (rng : Nat → Nat → Nat) : Grid :=
  ((s.residents g).foldl (fun (st : Grid × Nat) xy =>
    match s.separate_particle st.1 (rng st.2) with
    | some nxy => ((st.1.move_particle xy.1 xy.2 nxy.1 nxy.2).1, st.2 + 1)
    | none => (st.1, st.2 + 1)) (g, 0)).1

/-- Stable insertion into a sorted list: `before a b` is the non-strict
"a may come before b" comparison, so equal keys keep their original order,
matching Python's stable `list.sort`. -/
def insertOrderedBy {α : Type} (before : α → α → Bool) (a : α) :
    List α → List α
  | [] => [a]
  | b :: l => if before a b then a :: b :: l else b :: insertOrderedBy before a l

/-- Stable insertion sort, modelling Python's stable `list.sort(key=...)`. -/
def sortOrderedBy {α : Type} (before : α → α → Bool) : List α → List α
  | [] => []
  | a :: l => insertOrderedBy before a (sortOrderedBy before l)

/-- The per-segment processing order of `Lift._process_segment_particles`:
closest-to-exit first. -/
def Lift.sort_segment (segment : SegName) (ps : List (Int × Int × Particle)) :
    List (Int × Int × Particle) :=
  match segment with
  | .cb_vertical => sortOrderedBy (fun a b => decide (b.2.1 ≤ a.2.1)) ps
  | .cb_horizontal => sortOrderedBy (fun a b => decide (b.1 ≤ a.1)) ps
  | .main_vertical => sortOrderedBy (fun a b => decide (a.2.1 ≤ b.2.1)) ps
  | .rcv_horizontal => sortOrderedBy (fun a b => decide (a.1 ≤ b.1)) ps
  | .rcv_vertical => sortOrderedBy (fun a b => decide (b.2.1 ≤ a.2.1)) ps

/-- The candidate loop of `Lift._process_segment_particles`: try each next
position in order, skipping claimed cells, moving into the first valid empty
one. -/
def liftTryMove (g : Grid) (claimed : List (Int × Int)) (x y : Int) :
    List (Int × Int) → Grid × List (Int × Int) × Bool
  | [] => (g, claimed, false)
  | (nx, ny) :: rest =>
      if !(claimed.contains (nx, ny)) then
        if g.is_valid_position nx ny && g.is_empty nx ny then
          ((g.move_particle x y nx ny).1, (nx, ny) :: claimed, true)
        else
          liftTryMove g claimed x y rest
      else
        liftTryMove g claimed x y rest

/-- The blocked-exit loop of `Lift._process_segment_particles`: lateral nudge
to a cell outside the lift footprint. -/
def Lift.try_exit (l : Lift) (g : Grid) (claimed : List (Int × Int)) (x y : Int) :
    List (Int × Int) → Grid × List (Int × Int) × Bool
  | [] => (g, claimed, false)
  | (ex, ey) :: rest =>
      if !(claimed.contains (ex, ey)) && g.is_valid_position ex ey &&
          g.is_empty ex ey && !(l.is_inside_lift ex ey) then
        ((g.move_particle x y ex ey).1, (ex, ey) :: claimed, true)
      else
        l.try_exit g claimed x y rest

/-- One particle of `Lift._process_segment_particles`: candidate moves, the
blocked-exit nudge for `rcv_vertical`, and exit counting. -/
def Lift.process_one (l : Lift) (segment : SegName)
    (st : Grid × List (Int × Int) × Nat) (p : Int × Int × Particle) :
    Grid × List (Int × Int) × Nat :=
  let (g, claimed, exited) := st
  let (x, y, _) := p
  let next := l.get_next_positions x y segment
  let (g1, claimed1, moved) := liftTryMove g claimed x y next
  if !moved ∧ segment = .rcv_vertical then
    if l.rcv_vt_shaft_y + l.rcv_vt_shaft_height - 1 ≤ y then
      let (g2, claimed2, didExit) := l.try_exit g1 claimed1 x y (Lift.get_exit_positions x y)
      (g2, claimed2, if didExit then exited + 1 else exited)
    else
      (g1, claimed1, exited)
  else if moved ∧ segment = .rcv_vertical then
    -- the source inspects `next_positions[0]`, not the cell actually taken
    match next with
    | (nx, ny) :: _ =>
        if !(l.is_inside_lift nx ny) then (g1, claimed1, exited + 1)
        else (g1, claimed1, exited)
    | [] => (g1, claimed1, exited)
  else
    (g1, claimed1, exited)

/-- `Lift._process_segment_particles` for one segment, returning the new grid
and the accumulated exit count; `claimed_positions` starts empty per segment. -/
def Lift.process_segment_particles (l : Lift) (g : Grid) (exited : Nat)
    (particles : List (Int × Int × Particle)) (segment : SegName) : Grid × Nat :=
  let sorted := Lift.sort_segment segment particles
  let res := sorted.foldl (fun st p => l.process_one segment st p)
    (g, ([] : List (Int × Int)), exited)
  (res.1, res.2.2)

/-- `Lift.update_particles_in_lift`: the throttled conveyor tick — count new
arrivals at the entry strip, enumerate and unmark lift residents, classify by
segment (first match of the `elif` chain) and process segments exit-first. -/
def Lift.update_particles_in_lift (l : Lift) (g : Grid) : Lift × Grid :=
  let l := { l with frame_counter := l.frame_counter + 1 }
  if l.frame_counter % max 1 l.lift_speed_inv != 0 then
    (l, g)
  else
    let entry := l.get_entry_position
    let entryScan := (List.range l.shaft_width.toNat).foldl
      (fun (st : Grid × Nat) (i : Nat) =>
        let x := entry.1 + (i : Int)
        if st.1.is_valid_position x entry.2 then
          match st.1.get_particle x entry.2 with
          | some particle =>
              if !particle.just_entered_lift then
                (st.1.setCell x entry.2 (some { particle with just_entered_lift := true }),
                  st.2 + 1)
              else st
          | none => st
        else st) (g, 0)
    let g := entryScan.1
    let newly_entered := entryScan.2
    let scanned := (List.range g.height.toNat).foldl
      (fun (st : Grid × List (Int × Int × Particle)) (yi : Nat) =>
        (List.range g.width.toNat).foldl
          (fun (st : Grid × List (Int × Int × Particle)) (xi : Nat) =>
            let x : Int := (xi : Int)
            let y : Int := (yi : Int)
            match st.1.get_particle x y with
            | some particle =>
                if l.is_inside_lift x y then
                  if particle.just_entered_lift then
                    (st.1.setCell x y (some { particle with just_entered_lift := false }),
                      st.2 ++ [(x, y, { particle with just_entered_lift := false })])
                  else
                    (st.1, st.2 ++ [(x, y, particle)])
                else st
            | none => st) st) (g, [])
    let g := scanned.1
    let particles_to_move := scanned.2
    let classify : Int → Int → Option SegName := fun x y =>
      if l.is_inside_cb_vertical x y then some .cb_vertical
      else if l.is_inside_cb_horizontal x y then some .cb_horizontal
      else if l.is_inside_main_vertical x y then some .main_vertical
      else if l.is_inside_rcv_horizontal x y then some .rcv_horizontal
      else if l.is_inside_rcv_vertical x y then some .rcv_vertical
      else none
    let bucket := fun (seg : SegName) =>
      particles_to_move.filter (fun t => decide (classify t.1 t.2.1 = some seg))
    let order := [SegName.rcv_vertical, SegName.rcv_horizontal,
      SegName.main_vertical, SegName.cb_horizontal, SegName.cb_vertical]
    let res := order.foldl (fun (st : Grid × Nat) seg =>
      l.process_segment_particles st.1 st.2 (bucket seg) seg) (g, 0)
    ({ l with
        particles_entered := l.particles_entered + newly_entered,
        particles_exited := l.particles_exited + res.2 }, res.1)

/-- One row of `Lift.resident_count`. -/
def Lift.resident_row (l : Lift) (g : Grid) (n : Nat) (yi : Nat) : Nat :=
  (List.range g.width.toNat).foldl (fun n (xi : Nat) =>
    if (g.get_particle (xi : Int) (yi : Int)).isSome &&
        l.is_inside_lift (xi : Int) (yi : Int) then n + 1 else n) n

/-- The quantity the conservation claim compares against: the number of grid
cells holding a particle whose coordinates lie inside any lift segment. -/
def Lift.resident_count (l : Lift) (g : Grid) : Nat :=
  (List.range g.height.toNat).foldl (l.resident_row g) 0

/-- `simulation.py`: the orchestrator state.  `next_pid` is an embedding
artifact supplying a fresh identity for each spawned particle (Python gets
this from object allocation); drawing-only fields are omitted. -/
structure Simulation where
  screen_width : Int := 800
  screen_height : Int := 900
  cell_size : Int := 8
  grid_width : Int
  grid_height : Int
  grid : Grid
  receiver : Receiver
  separator : Separator
  hotbin : HotBin
  psg : PSG
  coldbin : ColdBin
  lift : Lift
  spawn_count : Nat := 0
  max_spawn : Nat := 1
  spawn_delay : Nat := 3
  spawn_timer : Nat := 0
  spawning_complete : Bool := false
  hotbin_timer : Nat := 0
  hotbin_cycle_duration : Nat := 300
  coldbin_timer : Nat := 0
  coldbin_cycle_duration : Nat := 300
  spawn_x : Int
  spawn_y : Int
  frame_counter : Nat := 0
  thermal_loss_lift : Int := 5
  thermal_loss_hotbin : Int := 5
  thermal_loss_coldbin : Int := 5
  thermal_loss_psg : Int := 5
  thermal_loss_default : Int := 0
  running : Bool := false
  next_pid : Nat := 0

/-- `Simulation.__init__`: components constructed in dependency order from the
screen geometry. -/
def Simulation.make (screen_width screen_height cell_size : Int) : Simulation :=
  let grid_width := screen_width / cell_size
  let grid_height := screen_height / cell_size
  let receiver := Receiver.make grid_width grid_height
  let separator := Separator.make receiver.x receiver.y receiver.width
  let hotbin := HotBin.make receiver.x receiver.y receiver.width
  let psg := PSG.make hotbin.x hotbin.y hotbin.width
  let coldbin := ColdBin.make psg.x psg.y psg.width
  { screen_width := screen_width, screen_height := screen_height,
    cell_size := cell_size,
    grid_width := grid_width, grid_height := grid_height,
    grid := Grid.make grid_width grid_height,
    receiver := receiver, separator := separator, hotbin := hotbin,
    psg := psg, coldbin := coldbin,
    lift := Lift.make coldbin (separator.y + separator.height),
    spawn_x := receiver.x + receiver.width / 2,
    spawn_y := max 0 (receiver.y - 3) }

/-- `Simulation.spawn_particle`. -/
def Simulation.spawn_particle (sim : Simulation) : Simulation :=
  if sim.spawning_complete || decide (sim.max_spawn ≤ sim.spawn_count) ||
      decide (0 < sim.spawn_timer) then
    sim
  else if sim.grid.is_empty sim.spawn_x sim.spawn_y then
    let particle : Particle := { pid := sim.next_pid, x := sim.spawn_x, y := sim.spawn_y }
    let res := sim.grid.place_particle particle sim.spawn_x sim.spawn_y
    if res.2 then
      let sim := { sim with
        grid := res.1, next_pid := sim.next_pid + 1,
        spawn_count := sim.spawn_count + 1, spawn_timer := sim.spawn_delay }
      if sim.max_spawn ≤ sim.spawn_count then
        { sim with spawning_complete := true }
      else sim
    else
      { sim with grid := res.1 }
  else
    sim

/-- One row of `Simulation.apply_thermal_losses`: location-dependent ambient
cooling for every particle (the particle itself rate-limits via
`apply_thermal_loss`). -/
def Simulation.thermal_row (sim : Simulation) (g : Grid) (yi : Nat) : Grid :=
  (List.range sim.grid_width.toNat).foldl (fun (g : Grid) (xi : Nat) =>
    let x : Int := (xi : Int)
    let y : Int := (yi : Int)
    match g.get_particle x y with
    | none => g
    | some particle =>
        let loss_rate :=
          if sim.lift.is_inside_lift x y then sim.thermal_loss_lift
          else if sim.hotbin.is_inside x y then sim.thermal_loss_hotbin
          else if sim.coldbin.is_inside x y then sim.thermal_loss_coldbin
          else if sim.psg.is_inside x y then sim.thermal_loss_psg
          else sim.thermal_loss_default
        g.setCell x y (some (particle.apply_thermal_loss loss_rate sim.frame_counter)))
    g

/-- `Simulation.apply_thermal_losses`: ambient cooling over the whole grid,
every tick. -/
def Simulation.apply_thermal_losses (sim : Simulation) : Simulation :=
  { sim with
    grid := (List.range sim.grid_height.toNat).foldl sim.thermal_row sim.grid }

/-- One row of the gravity sweep of `Simulation.update_physics` (right to
left within the row). -/
def Simulation.sweep_row (sim : Simulation) (rngChoice : Int → Int → Nat)
    (g : Grid) (yi : Nat) : Grid :=
  ((List.range sim.grid_width.toNat).reverse).foldl (fun (g : Grid) (xi : Nat) =>
    let x : Int := (xi : Int)
    let y : Int := (yi : Int)
    if (g.get_particle x y).isSome then
      (g.update_particle x y (some sim.hotbin) (some sim.coldbin)
        (some sim.lift) (some sim.separator) (some sim.psg) (rngChoice x y)).1
    else g) g

/-- The gravity sweep of `Simulation.update_physics`: rows from bottom to top,
excluding the bottom row. -/
def Simulation.gravity_sweep (sim : Simulation) (rngChoice : Int → Int → Nat) :
    Grid :=
  ((List.range (sim.grid_height - 1).toNat).reverse).foldl
    (sim.sweep_row rngChoice) sim.grid

/-- `Simulation.update_physics`: lift, separator, PSG, receiver, thermal loss,
then the bottom-to-top right-to-left gravity sweep.  `rngChoice x y` is the
diagonal tie-break oracle for the cell (x, y); `rngSep i` the separator oracle
for its i-th processed particle. -/
def Simulation.update_physics (sim : Simulation) (rngChoice : Int → Int → Nat)
    (rngSep : Nat → Nat → Nat) : Simulation :=
  let lg := sim.lift.update_particles_in_lift sim.grid
  let sim := { sim with lift := lg.1, grid := lg.2 }
  let sim := { sim with
    grid := sim.separator.update_particles_in_separator sim.grid rngSep }
  let pg := sim.psg.update_particles_in_psg sim.grid
  let sim := { sim with psg := pg.1, grid := pg.2 }
  let rg := sim.receiver.update_particles_in_receiver sim.grid
  let sim := { sim with receiver := rg.1, grid := rg.2 }
  let sim := sim.apply_thermal_losses
  { sim with grid := sim.gravity_sweep rngChoice }

/-- `Simulation.update`: one full simulation tick — frame counter, spawn timer
and spawn, the two bin open/close cycles, then `update_physics`.  The source's
sequential field assignments are merged into grouped record updates (the
fields written are pairwise distinct, so the result is identical). -/
def Simulation.update (sim : Simulation) (rngChoice : Int → Int → Nat)
    (rngSep : Nat → Nat → Nat) : Simulation :=
  if !sim.running then
    sim
  else
    let sim1 := { sim with
      frame_counter := sim.frame_counter + 1,
      spawn_timer := if 0 < sim.spawn_timer then sim.spawn_timer - 1 else sim.spawn_timer }
    let sim2 := sim1.spawn_particle
    let ht := if sim2.hotbin_cycle_duration * 2 ≤ sim2.hotbin_timer + 1 then 0
      else sim2.hotbin_timer + 1
    let ct := if sim2.coldbin_cycle_duration * 2 ≤ sim2.coldbin_timer + 1 then 0
      else sim2.coldbin_timer + 1
    let sim3 := { sim2 with
      hotbin_timer := ht,
      coldbin_timer := ct,
      hotbin := if ht < sim2.hotbin_cycle_duration then sim2.hotbin.close_bin
        else sim2.hotbin.open_bin,
      coldbin := if ct < sim2.coldbin_cycle_duration then sim2.coldbin.close_bin
        else sim2.coldbin.open_bin }
    sim3.update_physics rngChoice rngSep



/-!
## Proof-side definitions

Well-formedness of the cell array, occupancy counting for the conservation
invariant, and the concrete program states the claim theorems are evaluated
on.
-/

/-- Well-formedness of the cell array: row count matches `height`, every row's
length matches `width`.  True of `Grid.make` and preserved by every
operation. -/
def Grid.dims_ok (g : Grid) : Prop :=
  g.cells.length = g.height.toNat ∧ ∀ row ∈ g.cells, row.length = g.width.toNat

instance (g : Grid) : Decidable g.dims_ok := by
  unfold Grid.dims_ok; infer_instance

/-- Occupancy contribution of one cell for a given particle identity. -/
def cellOcc (pid : Nat) (c : Option Particle) : Nat :=
  match c with
  | some p => if p.pid = pid then 1 else 0
  | none => 0

/-- Occupancy of one row. -/
def rowOcc (pid : Nat) (row : List (Option Particle)) : Nat :=
  (row.map (cellOcc pid)).sum

/-- How many grid cells hold a particle with the given identity.  The claim's
invariant is `occCount g pid ≤ 1` for every pid, and a physics tick must keep
`occCount` pointwise unchanged (no particle lost or duplicated). -/
def Grid.occCount (g : Grid) (pid : Nat) : Nat :=
  (g.cells.map (rowOcc pid)).sum

/-- Same cell-array shape: dimensions and per-row lengths agree. -/
def GridShape (g g' : Grid) : Prop :=
  g'.width = g.width ∧ g'.height = g.height ∧
  g'.cells.length = g.cells.length ∧
  (∀ i, (g'.cells.getD i []).length = (g.cells.getD i []).length)

/-- The simulation relation for conservation: same shape and the same
occupancy count for every particle identity. -/
def GridOcc (g g' : Grid) : Prop :=
  GridShape g g' ∧ ∀ pid, g'.occCount pid = g.occCount pid

/-- C4 concrete instances for the witness. -/
def pC4 : Particle := { pid := 0, x := 1, y := 1 }

def gC4 : Grid := ((Grid.make 3 3).place_particle pC4 1 1).1

/-- C3 concrete instances: a 3×3 grid with a particle at (1, 1). -/
def pC3a : Particle := { pid := 0, x := 1, y := 1 }

def pC3b : Particle := { pid := 1, x := 0, y := 0 }

def gC3 : Grid := ((Grid.make 3 3).place_particle pC3a 1 1).1

/-- C5 concrete instances: the receiver of a 20×24 grid with the scenario's
heating rate 50, and one resident particle at temperature 480. -/
def rcvC5 : Receiver := { Receiver.make 20 24 with heating_rate := 50 }

def pC5 : Particle := { pid := 0, x := 5, y := 22, temperature := 480 }

def gC5 : Grid := ((Grid.make 20 24).place_particle pC5 5 22).1

/-- C6 concrete instances: a 10×10 grid, a particle at (5, 5), straight-down
blocked at (5, 6), with both / one / neither diagonal open. -/
def pC6 : Particle := { pid := 0, x := 5, y := 5 }

def pC6b : Particle := { pid := 1, x := 5, y := 6 }

def pC6c : Particle := { pid := 2, x := 4, y := 6 }

def pC6d : Particle := { pid := 3, x := 6, y := 6 }

def gC6both : Grid :=
  (((Grid.make 10 10).place_particle pC6 5 5).1.place_particle pC6b 5 6).1

def gC6right : Grid := (gC6both.place_particle pC6c 4 6).1

def gC6none : Grid := (gC6right.place_particle pC6d 6 6).1

/-- C7 witness instances: a small lift whose cold-bin vertical segment covers
(1, 1), the real separator geometry, and a particle at (1, 1). -/
def liftC7 : Lift :=
  { cb_shaft_x := 0, cb_shaft_y := 0, cb_hz_shaft_x := 0, cb_hz_shaft_y := 5,
    cb_hz_shaft_length := 6, main_shaft_x := 6, main_shaft_y := 0,
    main_shaft_height := 10, rcv_hz_shaft_x := 0, rcv_hz_shaft_y := 0,
    rcv_hz_shaft_length := 6, rcv_vt_shaft_x := 0, rcv_vt_shaft_y := 5 }

def sepC7 : Separator := Separator.make 45 22 10

def gC7 : Grid := ((Grid.make 5 5).place_particle { pid := 0, x := 1, y := 1 } 1 1).1

/-- C8 witness instances: the PSG below a hot bin at the origin, one resident
particle. -/
def psgC8 : PSG := PSG.make 0 0 8

def pC8 : Particle := { pid := 0, x := 2, y := 15 }

def gC8 : Grid := ((Grid.make 8 20).place_particle pC8 2 15).1

/-- C9 concrete instances: the separator above the receiver, one resident at
(48, 12), and the exit row blocked except at columns 47, 50, 52. -/
def sepC9 : Separator := Separator.make 45 22 10

def pC9 : Particle := { pid := 0, x := 48, y := 12 }

def gC9 : Grid :=
  (((((((Grid.make 60 20).place_particle pC9 48 12).1.place_particle
    { pid := 1, x := 46, y := 15 } 46 15).1.place_particle
    { pid := 2, x := 48, y := 15 } 48 15).1.place_particle
    { pid := 3, x := 49, y := 15 } 49 15).1.place_particle
    { pid := 4, x := 51, y := 15 } 51 15).1.place_particle
    { pid := 5, x := 53, y := 15 } 53 15).1

def pC1 : Particle := { pid := 0, x := 9, y := 58 }

/-- C1 failing input: the simulation built by the constructor for an 80×640
screen (10×80 grid), running, spawning finished, the single particle resting
just above the lift entry strip inside the open cold bin, and the cold-bin
timer in its open phase. -/
def simC1 : Simulation :=
  let base := Simulation.make 80 640 8
  { base with
    running := true,
    spawning_complete := true,
    spawn_count := 1,
    coldbin_timer := 320,
    coldbin := base.coldbin.open_bin,
    grid := (base.grid.place_particle pC1 9 58).1 }

def rng0 : Int → Int → Nat := fun _ _ => 0

def rngS0 : Nat → Nat → Nat := fun _ _ => 0

/-- The state after the timer phase of `Simulation.update`, before physics. -/
def simC1mid : Simulation :=
  { simC1 with
    frame_counter := 1, hotbin_timer := 1, coldbin_timer := 321,
    hotbin := simC1.hotbin.close_bin, coldbin := simC1.coldbin.open_bin }

/-- The state after the lift/separator/PSG/receiver phases (the grid is
untouched: the lift update is throttled out and no particle occupies any of
those zones). -/
def simC1b : Simulation :=
  { simC1mid with
    lift := { simC1mid.lift with frame_counter := 1 },
    psg := { simC1mid.psg with frame_counter := 1 },
    receiver := { simC1mid.receiver with frame_counter := 1 } }

/-- The grid after the tick: the particle fell into the lift entry cell. -/
def gC1 : Grid := (simC1.grid.move_particle 9 58 9 59).1

def l1C1 : List Nat := (List.range 20).map (fun i => 78 - i)

def l2C1 : List Nat := (List.range 58).map (fun i => 57 - i)

def r1C1 : List Nat := List.range 59

def r2C1 : List Nat := (List.range 20).map (fun i => 60 + i)

/-- C2 witness instance: a 3×3 grid with one particle. -/
def simC2w : Simulation :=
  { Simulation.make 24 24 8 with
    grid_width := 3, grid_height := 3,
    grid := ((Grid.make 3 3).place_particle { pid := 0, x := 1, y := 0 } 1 0).1 }

/-!
## Lemmas
-/

lemma cellAt_eq (g : Grid) (x y : Int) :
    g.cellAt x y = ((g.cells[y.toNat]?.getD [])[x.toNat]?.getD none) := by
  simp [Grid.cellAt, List.getD_eq_getElem?_getD]

lemma setCell_width (g : Grid) (x y : Int) (v : Option Particle) :
    (g.setCell x y v).width = g.width := rfl

lemma setCell_height (g : Grid) (x y : Int) (v : Option Particle) :
    (g.setCell x y v).height = g.height := rfl

lemma setCell_counter (g : Grid) (x y : Int) (v : Option Particle) :
    (g.setCell x y v).psg_speed_counter = g.psg_speed_counter := rfl

lemma setCell_cells_length (g : Grid) (x y : Int) (v : Option Particle) :
    (g.setCell x y v).cells.length = g.cells.length := by
  simp [Grid.setCell]

lemma cellAt_setCell_row_ne (g : Grid) (x y x' y' : Int) (v : Option Particle)
    (h : y.toNat ≠ y'.toNat) :
    (g.setCell x y v).cellAt x' y' = g.cellAt x' y' := by
  simp [cellAt_eq, Grid.setCell, List.getElem?_set_ne h]

lemma cellAt_setCell_col_ne (g : Grid) (x y x' y' : Int) (v : Option Particle)
    (hy : y.toNat = y'.toNat) (h : x.toNat ≠ x'.toNat) :
    (g.setCell x y v).cellAt x' y' = g.cellAt x' y' := by
  rcases Nat.lt_or_ge y.toNat g.cells.length with hlt | hge
  · simp only [cellAt_eq, Grid.setCell, ← hy, List.getElem?_set_self hlt,
      List.getD_eq_getElem?_getD, Option.getD_some]
    rw [List.getElem?_eq_getElem hlt]
    simp [List.getElem?_set_ne h, List.getD_eq_getElem?_getD]
  · simp only [cellAt_eq, Grid.setCell, List.getD_eq_getElem?_getD]
    rw [List.set_eq_of_length_le hge]

lemma cellAt_setCell_self (g : Grid) (x y : Int) (v : Option Particle)
    (hy : y.toNat < g.cells.length)
    (hx : x.toNat < (g.cells.getD y.toNat []).length) :
    (g.setCell x y v).cellAt x y = v := by
  simp only [cellAt_eq, Grid.setCell, List.getElem?_set_self hy, Option.getD_some]
  have hx' : x.toNat < ((g.cells.getD y.toNat []).set x.toNat v).length := by
    simpa using hx
  rw [List.getElem?_set_self (by simpa using hx)]
  rfl

lemma setCell_row_length (g : Grid) (x y : Int) (v : Option Particle) (i : Nat) :
    ((g.setCell x y v).cells.getD i []).length = (g.cells.getD i []).length := by
  by_cases hi : y.toNat = i
  · subst hi
    rcases Nat.lt_or_ge y.toNat g.cells.length with hlt | hge
    · simp [Grid.setCell, List.getD_eq_getElem?_getD, List.getElem?_set_self hlt]
    · simp [Grid.setCell, List.getD_eq_getElem?_getD, List.set_eq_of_length_le hge]
  · simp [Grid.setCell, List.getD_eq_getElem?_getD, List.getElem?_set_ne hi]

lemma cellAt_isSome_range (g : Grid) (x y : Int)
    (h : (g.cellAt x y).isSome = true) :
    y.toNat < g.cells.length ∧ x.toNat < (g.cells.getD y.toNat []).length := by
  constructor
  · by_contra hge
    push_neg at hge
    have hnone : g.cells[y.toNat]? = none := List.getElem?_eq_none hge
    rw [cellAt_eq, hnone] at h
    simp at h
  · by_contra hge
    push_neg at hge
    rw [cellAt_eq] at h
    rw [List.getD_eq_getElem?_getD] at hge
    rw [List.getElem?_eq_none hge] at h
    simp at h

lemma move_particle_success (g : Grid) (fx fy tx ty : Int) (p : Particle)
    (hsrc : g.cellAt fx fy = some p) (hdst : g.cellAt tx ty = none)
    (hv1 : g.is_valid_position fx fy = true) (hv2 : g.is_valid_position tx ty = true) :
    g.move_particle fx fy tx ty =
      ((g.setCell fx fy none).setCell tx ty (some (p.move_to tx ty)), true) := by
  unfold Grid.move_particle
  simp [hv1, hv2, hsrc, hdst]

lemma move_particle_fail_eq (g : Grid) (fx fy tx ty : Int)
    (h : (g.move_particle fx fy tx ty).2 = false) :
    (g.move_particle fx fy tx ty).1 = g := by
  unfold Grid.move_particle at h ⊢
  split at h
  · simp_all
  · split at h <;> simp_all

lemma move_particle_succ_iff (g : Grid) (fx fy tx ty : Int) :
    (g.move_particle fx fy tx ty).2 = true ↔
      (g.is_valid_position fx fy = true ∧ g.is_valid_position tx ty = true ∧
        (g.cellAt fx fy).isSome = true ∧ (g.cellAt tx ty).isNone = true) := by
  unfold Grid.move_particle
  split
  · next hcond =>
      simp only [Bool.or_eq_true, Bool.not_eq_true'] at hcond
      constructor
      · intro h; simp at h
      · rintro ⟨h1, h2, -, -⟩
        rcases hcond with h | h <;> simp_all
  · next hcond =>
      simp only [Bool.or_eq_true, Bool.not_eq_true'] at hcond
      push_neg at hcond
      split <;> simp_all

lemma should_slow_cells (g : Grid) (x y : Int) (psg : Option PSG) :
    (g.should_particle_move_slowly x y psg).1.cells = g.cells := by
  unfold Grid.should_particle_move_slowly
  cases psg with
  | none => cases g.get_particle x y <;> rfl
  | some p =>
      dsimp only
      by_cases hin : p.should_particle_move_slow x y = true
      · rw [if_pos hin]
        cases g.get_particle x y <;> rfl
      · rw [if_neg hin]
        cases g.get_particle x y <;> rfl

lemma slow_branch_cells (g : Grid) (x y : Int) (psg : Option PSG) :
    (match psg with
      | some _ => g.should_particle_move_slowly x y psg
      | none => (g, true)).1.cells = g.cells := by
  cases psg
  · rfl
  · exact should_slow_cells g x y _

lemma lookupCounter_setCounter_self (m : List (Nat × Nat)) (k v : Nat) :
    lookupCounter (setCounter m k v) k = some v := by
  unfold setCounter
  split
  · next hfind =>
      induction m with
      | nil => simp at hfind
      | cons a m ih =>
          by_cases ha : (a.1 == k) = true
          · rw [List.map_cons, if_pos ha]
            simp [lookupCounter, List.find?_cons]
          · have ha' : (a.1 == k) = false := by simpa using ha
            simp only [List.find?_cons, ha'] at hfind
            simp only [List.map_cons, lookupCounter, List.find?_cons, ha',
              Bool.false_eq_true, if_false] at ih ⊢
            exact ih hfind
  · next hfind =>
      induction m with
      | nil => simp [lookupCounter]
      | cons a m ih =>
          by_cases ha : (a.1 == k) = true
          · exact absurd (by simp [List.find?_cons, ha]) hfind
          · have ha' : (a.1 == k) = false := by simpa using ha
            simp only [List.find?_cons, ha'] at hfind
            simp only [List.cons_append, lookupCounter, List.find?_cons, ha',
              Bool.false_eq_true, if_false] at ih ⊢
            exact ih hfind

lemma lookupCounter_delCounter_self (m : List (Nat × Nat)) (k : Nat) :
    lookupCounter (delCounter m k) k = none := by
  unfold lookupCounter delCounter
  rw [List.find?_eq_none.mpr]
  · rfl
  · intro kv hmem
    rcases List.mem_filter.mp hmem with ⟨-, hkv⟩
    simpa using hkv

lemma get_particle_some (g : Grid) (x y : Int) (p : Particle)
    (h : g.get_particle x y = some p) :
    g.is_valid_position x y = true ∧ g.cellAt x y = some p := by
  unfold Grid.get_particle at h
  split at h
  · exact ⟨by assumption, h⟩
  · exact absurd h (by simp)

lemma sepTryRandom_some (s : Separator) (g : Grid) (draws : Nat → Nat) (ey : Int) :
    ∀ fuel i nx, sepTryRandom s g draws ey i fuel = some nx →
      (g.is_valid_position nx ey && g.is_empty nx ey) = true ∧
      (0 < s.distribution_width →
        nx ∈ (List.range s.distribution_width.toNat).map
          (fun o : Nat => s.distribution_start_x + (o : Int))) := by
  intro fuel
  induction fuel with
  | zero =>
      intro i nx h
      exact absurd h (by simp [sepTryRandom])
  | succ fuel ih =>
      intro i nx h
      unfold sepTryRandom at h
      dsimp only at h
      split at h
      · next hcond =>
          cases h
          refine ⟨hcond, fun hw => ?_⟩
          have hpos : 0 < s.distribution_width.toNat := by omega
          exact List.mem_map_of_mem _
            (List.mem_range.mpr (Nat.mod_lt (draws i) hpos))
      · exact ih (i + 1) nx h

lemma separate_particle_spec (s : Separator) (g : Grid) (draws : Nat → Nat)
    (nx ny : Int) (h : s.separate_particle g draws = some (nx, ny)) :
    ny = s.bottom_y + s.thickness ∧
    (g.is_valid_position nx ny && g.is_empty nx ny) = true ∧
    (0 < s.distribution_width →
      nx ∈ (List.range s.distribution_width.toNat).map
        (fun o : Nat => s.distribution_start_x + (o : Int))) := by
  unfold Separator.separate_particle at h
  dsimp only at h
  split at h
  · next nx0 htr =>
      injection h with hpair
      cases hpair
      obtain ⟨hfree, hmem⟩ := sepTryRandom_some s g draws _ _ _ _ htr
      exact ⟨rfl, hfree, hmem⟩
  · next htr =>
      split at h
      · next nx0 hseq =>
          injection h with hpair
          cases hpair
          unfold Separator.sequential_scan at hseq
          have hfree := List.find?_some hseq
          have hmem := List.mem_of_find?_eq_some hseq
          exact ⟨rfl, hfree, fun _ => hmem⟩
      · exact absurd h (by simp)

lemma separate_particle_isSome (s : Separator) (g : Grid) (draws : Nat → Nat)
    (hfree : ∃ nx ∈ (List.range s.distribution_width.toNat).map
        (fun o : Nat => s.distribution_start_x + (o : Int)),
      (g.is_valid_position nx (s.bottom_y + s.thickness) &&
        g.is_empty nx (s.bottom_y + s.thickness)) = true) :
    (s.separate_particle g draws).isSome = true := by
  unfold Separator.separate_particle
  dsimp only
  split
  · simp
  · have hseq : (s.sequential_scan g (s.bottom_y + s.thickness)).isSome = true := by
      unfold Separator.sequential_scan
      exact List.find?_isSome.mpr hfree
    split
    · simp
    · next hnone => rw [hnone] at hseq; exact absurd hseq (by simp)

/-- A fold whose step fixes the accumulator on every element of the list
leaves it unchanged. -/
lemma foldl_fixed {α β : Type} (f : β → α → β) (b : β) :
    ∀ l : List α, (∀ a ∈ l, f b a = b) → l.foldl f b = b
  | [], _ => rfl
  | a :: l, h => by
      rw [List.foldl_cons, h a (List.mem_cons_self a l)]
      exact foldl_fixed f b l (fun x hx => h x (List.mem_cons_of_mem a hx))

lemma simC1_update_unfold : simC1.update rng0 rngS0 =
    { simC1b.apply_thermal_losses with
      grid := simC1b.apply_thermal_losses.gravity_sweep rng0 } := rfl

lemma simC1_thermal_fixed : simC1b.apply_thermal_losses = simC1b := by
  unfold Simulation.apply_thermal_losses
  rw [foldl_fixed simC1b.thermal_row simC1b.grid _ (by decide)]

lemma simC1_sweep_eq : simC1b.gravity_sweep rng0 = gC1 := by
  unfold Simulation.gravity_sweep
  have hsplit : ((List.range (simC1b.grid_height - 1).toNat).reverse) =
      l1C1 ++ 58 :: l2C1 := by decide
  rw [hsplit, List.foldl_append]
  rw [foldl_fixed (simC1b.sweep_row rng0) simC1b.grid l1C1 (by decide)]
  rw [List.foldl_cons]
  rw [show simC1b.sweep_row rng0 simC1b.grid 58 = gC1 from by decide]
  exact foldl_fixed (simC1b.sweep_row rng0) gC1 l2C1 (by decide)

lemma gC1_resident_count : simC1b.lift.resident_count gC1 = 1 := by
  unfold Lift.resident_count
  have hsplit : List.range gC1.height.toNat = r1C1 ++ 59 :: r2C1 := by decide
  rw [hsplit, List.foldl_append]
  rw [foldl_fixed (simC1b.lift.resident_row gC1) 0 r1C1 (by decide)]
  rw [List.foldl_cons]
  rw [show simC1b.lift.resident_row gC1 0 59 = 1 from by decide]
  exact foldl_fixed (simC1b.lift.resident_row gC1) 1 r2C1 (by decide)

lemma simC1_resident_count_zero : simC1.lift.resident_count simC1.grid = 0 := by
  unfold Lift.resident_count
  exact foldl_fixed (simC1.lift.resident_row simC1.grid) 0 _ (by decide)

lemma GridOcc.refl (g : Grid) : GridOcc g g :=
  ⟨⟨rfl, rfl, rfl, fun _ => rfl⟩, fun _ => rfl⟩

lemma GridOcc.trans {a b c : Grid} (h1 : GridOcc a b) (h2 : GridOcc b c) :
    GridOcc a c := by
  obtain ⟨⟨w1, h1', l1, r1⟩, o1⟩ := h1
  obtain ⟨⟨w2, h2', l2, r2⟩, o2⟩ := h2
  exact ⟨⟨w2.trans w1, h2'.trans h1', l2.trans l1, fun i => (r2 i).trans (r1 i)⟩,
    fun pid => (o2 pid).trans (o1 pid)⟩

lemma dims_ok_row (g : Grid) (h : g.dims_ok) (i : Nat) (hi : i < g.cells.length) :
    (g.cells.getD i []).length = g.width.toNat := by
  apply h.2
  rw [List.getD_eq_getElem?_getD, List.getElem?_eq_getElem hi]
  exact List.getElem_mem hi

lemma GridShape.dims_ok_transfer {g g' : Grid} (hs : GridShape g g')
    (h : g.dims_ok) : g'.dims_ok := by
  obtain ⟨hw, hh, hl, hrow⟩ := hs
  constructor
  · rw [hl, hh, h.1]
  · intro row hmem
    obtain ⟨i, hi, hrow_eq⟩ := List.mem_iff_getElem.mp hmem
    have hi' : i < g.cells.length := by omega
    have h1 := hrow i
    rw [List.getD_eq_getElem?_getD, List.getElem?_eq_getElem hi] at h1
    simp only [Option.getD_some] at h1
    rw [← hrow_eq, h1, dims_ok_row g h i hi', hw]

lemma sum_map_set {α : Type} (f : α → Nat) (d : α) :
    ∀ (l : List α) (i : Nat) (a : α), i < l.length →
      ((l.set i a).map f).sum + f (l.getD i d) = (l.map f).sum + f a
  | [], i, a, h => absurd h (by simp)
  | b :: l, 0, a, _ => by
      simp only [List.set_cons_zero, List.map_cons, List.sum_cons, List.getD_cons_zero]
      omega
  | b :: l, i + 1, a, h => by
      simp only [List.set_cons_succ, List.map_cons, List.sum_cons, List.getD_cons_succ]
      have := sum_map_set f d l i a (by simpa using h)
      omega

lemma occCount_setCell (g : Grid) (x y : Int) (v : Option Particle) (pid : Nat)
    (hy : y.toNat < g.cells.length)
    (hx : x.toNat < (g.cells.getD y.toNat []).length) :
    (g.setCell x y v).occCount pid + cellOcc pid (g.cellAt x y) =
      g.occCount pid + cellOcc pid v := by
  unfold Grid.occCount Grid.setCell Grid.cellAt
  have h1 := sum_map_set (rowOcc pid) [] g.cells y.toNat
    ((g.cells.getD y.toNat []).set x.toNat v) hy
  have h2 := sum_map_set (cellOcc pid) none (g.cells.getD y.toNat []) x.toNat v hx
  unfold rowOcc at h1 h2 ⊢
  simp only [List.getD_eq_getElem?_getD] at h1 h2 ⊢
  omega

lemma gridShape_setCell (g : Grid) (x y : Int) (v : Option Particle) :
    GridShape g (g.setCell x y v) :=
  ⟨rfl, rfl, setCell_cells_length g x y v, setCell_row_length g x y v⟩

lemma set_getD_self {α : Type} (d : α) :
    ∀ (l : List α) (i : Nat), i < l.length → l.set i (l.getD i d) = l
  | [], i, h => absurd h (by simp)
  | b :: l, 0, _ => by simp
  | b :: l, i + 1, h => by
      simp only [List.getD_cons_succ, List.set_cons_succ]
      rw [set_getD_self d l i (by simpa using h)]

lemma gridOcc_setCell (g : Grid) (x y : Int) (v : Option Particle)
    (hocc : ∀ pid, cellOcc pid v = cellOcc pid (g.cellAt x y)) :
    GridOcc g (g.setCell x y v) := by
  refine ⟨gridShape_setCell g x y v, fun pid => ?_⟩
  by_cases hy : y.toNat < g.cells.length
  · by_cases hx : x.toNat < (g.cells.getD y.toNat []).length
    · have := occCount_setCell g x y v pid hy hx
      have := hocc pid
      omega
    · -- the row write is out of range, so the cell array is unchanged
      unfold Grid.occCount Grid.setCell
      rw [List.set_eq_of_length_le (le_of_not_lt hx),
        set_getD_self [] g.cells y.toNat hy]
  · unfold Grid.occCount Grid.setCell
    rw [List.set_eq_of_length_le (le_of_not_lt hy)]

lemma gridOcc_counter (g : Grid) (m : List (Nat × Nat)) :
    GridOcc g { g with psg_speed_counter := m } :=
  ⟨⟨rfl, rfl, rfl, fun _ => rfl⟩, fun _ => rfl⟩

lemma gridOcc_move_particle (g : Grid) (hwf : g.dims_ok) (fx fy tx ty : Int) :
    GridOcc g (g.move_particle fx fy tx ty).1 := by
  rcases hb : (g.move_particle fx fy tx ty).2 with _ | _
  · rw [move_particle_fail_eq g fx fy tx ty hb]
    exact GridOcc.refl g
  · obtain ⟨hv1, hv2, hs, hd⟩ := (move_particle_succ_iff g fx fy tx ty).mp hb
    obtain ⟨p, hp⟩ := Option.isSome_iff_exists.mp hs
    have hdst : g.cellAt tx ty = none := Option.isNone_iff_eq_none.mp hd
    rw [move_particle_success g fx fy tx ty p hp hdst hv1 hv2]
    dsimp only
    have hsr := cellAt_isSome_range g fx fy (by rw [hp]; rfl)
    have htyn : ty.toNat < g.cells.length := by
      have := hwf.1
      simp only [Grid.is_valid_position, decide_eq_true_eq] at hv2
      omega
    have htxn : tx.toNat < (g.cells.getD ty.toNat []).length := by
      have hrow := dims_ok_row g hwf ty.toNat htyn
      simp only [Grid.is_valid_position, decide_eq_true_eq] at hv2
      omega
    have hne : ¬(fy.toNat = ty.toNat ∧ fx.toNat = tx.toNat) := by
      rintro ⟨h1, h2⟩
      rw [cellAt_eq] at hp hdst
      rw [h1, h2] at hp
      rw [hp] at hdst
      exact Option.noConfusion hdst
    set g1 := g.setCell fx fy none with hg1
    have e1 := fun pid => occCount_setCell g fx fy none pid hsr.1 hsr.2
    have hcells1 : g1.cells.length = g.cells.length := setCell_cells_length g fx fy none
    have hrow1 : ∀ i, (g1.cells.getD i []).length = (g.cells.getD i []).length :=
      setCell_row_length g fx fy none
    have htyn1 : ty.toNat < g1.cells.length := by omega
    have htxn1 : tx.toNat < (g1.cells.getD ty.toNat []).length := by
      rw [hrow1]; exact htxn
    have hat1 : g1.cellAt tx ty = none := by
      by_cases hyy : fy.toNat = ty.toNat
      · have hxx : fx.toNat ≠ tx.toNat := fun hxx => hne ⟨hyy, hxx⟩
        rw [hg1, cellAt_setCell_col_ne g fx fy tx ty none hyy hxx]
        exact hdst
      · rw [hg1, cellAt_setCell_row_ne g fx fy tx ty none hyy]
        exact hdst
    have e2 := fun pid => occCount_setCell g1 tx ty (some (p.move_to tx ty)) pid htyn1 htxn1
    refine ⟨⟨rfl, rfl, by rw [setCell_cells_length, hcells1],
      fun i => by rw [setCell_row_length, hrow1]⟩, fun pid => ?_⟩
    have e1' := e1 pid
    have e2' := e2 pid
    rw [hat1] at e2'
    rw [hp] at e1'
    rw [← hg1] at e1'
    have hpid : (p.move_to tx ty).pid = p.pid := rfl
    simp only [cellOcc] at e1' e2'
    rw [hpid] at e2'
    by_cases hpp : p.pid = pid
    · rw [if_pos hpp] at e1' e2'
      omega
    · rw [if_neg hpp] at e1' e2'
      omega

lemma gridOcc_of_cells_eq {g g' : Grid} (hw : g'.width = g.width)
    (hh : g'.height = g.height) (hc : g'.cells = g.cells) : GridOcc g g' := by
  refine ⟨⟨hw, hh, by rw [hc], fun i => by rw [hc]⟩, fun pid => ?_⟩
  unfold Grid.occCount
  rw [hc]

lemma foldl_gridOcc {α β : Type} (π : β → Grid) (f : β → α → β)
    (h : ∀ b a, (π b).dims_ok → GridOcc (π b) (π (f b a))) :
    ∀ (l : List α) (b : β), (π b).dims_ok → GridOcc (π b) (π (l.foldl f b))
  | [], _, _ => GridOcc.refl _
  | a :: l, b, hwf => by
      have h1 := h b a hwf
      exact h1.trans
        (foldl_gridOcc π f h l (f b a) (h1.1.dims_ok_transfer hwf))

lemma gridOcc_should_slow (g : Grid) (x y : Int) (psg : Option PSG) :
    GridOcc g (g.should_particle_move_slowly x y psg).1 := by
  unfold Grid.should_particle_move_slowly
  cases psg with
  | none =>
      cases g.get_particle x y
      · exact GridOcc.refl g
      · exact gridOcc_counter g _
  | some p =>
      dsimp only
      by_cases hin : p.should_particle_move_slow x y = true
      · rw [if_pos hin]
        cases g.get_particle x y
        · exact GridOcc.refl g
        · exact gridOcc_counter g _
      · rw [if_neg hin]
        cases g.get_particle x y
        · exact GridOcc.refl g
        · exact gridOcc_counter g _

lemma gridOcc_slow_branch (g : Grid) (x y : Int) (psg : Option PSG) :
    GridOcc g (match psg with
      | some _ => g.should_particle_move_slowly x y psg
      | none => (g, true)).1 := by
  cases psg
  · exact GridOcc.refl g
  · exact gridOcc_should_slow g x y _

lemma dims_ok_slow_branch (g : Grid) (x y : Int) (psg : Option PSG)
    (hwf : g.dims_ok) :
    (match psg with
      | some _ => g.should_particle_move_slowly x y psg
      | none => (g, true)).1.dims_ok :=
  (gridOcc_slow_branch g x y psg).1.dims_ok_transfer hwf

lemma gridOcc_update_particle (g : Grid) (hwf : g.dims_ok) (x y : Int)
    (hb : Option HotBin) (cb : Option ColdBin) (l : Option Lift)
    (s : Option Separator) (psg : Option PSG) (c : Nat) :
    GridOcc g (g.update_particle x y hb cb l s psg c).1 := by
  unfold Grid.update_particle
  split
  · exact GridOcc.refl g
  · dsimp only
    have hslow := gridOcc_slow_branch g x y psg
    have hwf1 := dims_ok_slow_branch g x y psg hwf
    split
    · exact hslow
    · split
      · exact hslow
      · split
        · exact hslow
        · split
          · exact hslow.trans (gridOcc_move_particle _ hwf1 x y x (y + 1))
          · split
            · exact hslow
            · exact hslow.trans (gridOcc_move_particle _ hwf1 x y _ (y + 1))

lemma gridOcc_liftTryMove (g : Grid) (hwf : g.dims_ok)
    (claimed : List (Int × Int)) (x y : Int) :
    ∀ cands, GridOcc g (liftTryMove g claimed x y cands).1
  | [] => GridOcc.refl g
  | (nx, ny) :: rest => by
      unfold liftTryMove
      split
      · split
        · exact gridOcc_move_particle g hwf x y nx ny
        · exact gridOcc_liftTryMove g hwf claimed x y rest
      · exact gridOcc_liftTryMove g hwf claimed x y rest

lemma gridOcc_try_exit (l : Lift) (g : Grid) (hwf : g.dims_ok)
    (claimed : List (Int × Int)) (x y : Int) :
    ∀ cands, GridOcc g (l.try_exit g claimed x y cands).1
  | [] => GridOcc.refl g
  | (ex, ey) :: rest => by
      unfold Lift.try_exit
      split
      · exact gridOcc_move_particle g hwf x y ex ey
      · exact gridOcc_try_exit l g hwf claimed x y rest

lemma gridOcc_process_one (l : Lift) (segment : SegName)
    (st : Grid × List (Int × Int) × Nat) (p : Int × Int × Particle)
    (hwf : st.1.dims_ok) :
    GridOcc st.1 (l.process_one segment st p).1 := by
  obtain ⟨g, claimed, exited⟩ := st
  obtain ⟨x, y, particle⟩ := p
  unfold Lift.process_one
  dsimp only at hwf ⊢
  have h1 := gridOcc_liftTryMove g hwf claimed x y (l.get_next_positions x y segment)
  have hwf1 := h1.1.dims_ok_transfer hwf
  split
  · split
    · dsimp only
      exact h1.trans (gridOcc_try_exit l _ hwf1
        ((liftTryMove g claimed x y (l.get_next_positions x y segment)).2.1) x y
        (Lift.get_exit_positions x y))
    · exact h1
  · split
    · split
      · split
        · exact h1
        · exact h1
      · exact h1
    · exact h1

lemma gridOcc_process_segment (l : Lift) (g : Grid) (hwf : g.dims_ok)
    (exited : Nat) (particles : List (Int × Int × Particle)) (segment : SegName) :
    GridOcc g (l.process_segment_particles g exited particles segment).1 := by
  unfold Lift.process_segment_particles
  dsimp only
  exact foldl_gridOcc (fun st => st.1) (fun st p => l.process_one segment st p)
    (fun st p hwf' => gridOcc_process_one l segment st p hwf') _ (g, [], exited) hwf

lemma gridOcc_setCell_same_particle (g : Grid) (x y : Int)
    (particle q : Particle) (hq : q.pid = particle.pid)
    (hp : g.get_particle x y = some particle) :
    GridOcc g (g.setCell x y (some q)) := by
  apply gridOcc_setCell
  intro pid
  rw [(get_particle_some g x y particle hp).2]
  simp only [cellOcc, hq]

lemma gridOcc_lift_entry_scan (l : Lift) (g : Grid) (hwf : g.dims_ok) :
    GridOcc g ((List.range l.shaft_width.toNat).foldl
      (fun (st : Grid × Nat) (i : Nat) =>
        let x := l.get_entry_position.1 + (i : Int)
        if st.1.is_valid_position x l.get_entry_position.2 then
          match st.1.get_particle x l.get_entry_position.2 with
          | some particle =>
              if !particle.just_entered_lift then
                (st.1.setCell x l.get_entry_position.2
                  (some { particle with just_entered_lift := true }), st.2 + 1)
              else st
          | none => st
        else st) (g, 0)).1 := by
  refine foldl_gridOcc (fun st : Grid × Nat => st.1) _ ?_ _ _ hwf
  intro st i hwf'
  dsimp only
  split
  · split
    · next particle hpart =>
        split
        · exact gridOcc_setCell_same_particle st.1 _ _ particle
            { particle with just_entered_lift := true } rfl hpart
        · exact GridOcc.refl _
    · exact GridOcc.refl _
  · exact GridOcc.refl _

lemma gridOcc_lift_enumerate (l : Lift) (g : Grid) (hwf : g.dims_ok) :
    GridOcc g ((List.range g.height.toNat).foldl
      (fun (st : Grid × List (Int × Int × Particle)) (yi : Nat) =>
        (List.range g.width.toNat).foldl
          (fun (st : Grid × List (Int × Int × Particle)) (xi : Nat) =>
            let x : Int := (xi : Int)
            let y : Int := (yi : Int)
            match st.1.get_particle x y with
            | some particle =>
                if l.is_inside_lift x y then
                  if particle.just_entered_lift then
                    (st.1.setCell x y (some { particle with just_entered_lift := false }),
                      st.2 ++ [(x, y, { particle with just_entered_lift := false })])
                  else
                    (st.1, st.2 ++ [(x, y, particle)])
                else st
            | none => st) st) (g, [])).1 := by
  refine foldl_gridOcc (fun st : Grid × List (Int × Int × Particle) => st.1) _ ?_ _ _ hwf
  intro st yi hwf'
  refine foldl_gridOcc (fun st : Grid × List (Int × Int × Particle) => st.1) _ ?_ _ _ hwf'
  intro st' xi hwf''
  dsimp only
  split
  · next particle hpart =>
      split
      · split
        · exact gridOcc_setCell_same_particle st'.1 _ _ particle
            { particle with just_entered_lift := false } rfl hpart
        · exact GridOcc.refl _
      · exact GridOcc.refl _
  · exact GridOcc.refl _

lemma gridOcc_lift_update (l : Lift) (g : Grid) (hwf : g.dims_ok) :
    GridOcc g (l.update_particles_in_lift g).2 := by
  unfold Lift.update_particles_in_lift
  dsimp only
  split
  · exact GridOcc.refl g
  · have h1 := gridOcc_lift_entry_scan { l with frame_counter := l.frame_counter + 1 } g hwf
    have hwf1 := h1.1.dims_ok_transfer hwf
    have h2 := gridOcc_lift_enumerate { l with frame_counter := l.frame_counter + 1 } _ hwf1
    have hwf2 := h2.1.dims_ok_transfer hwf1
    refine (h1.trans (h2.trans ?_))
    refine foldl_gridOcc (fun st : Grid × Nat => st.1) _ ?_ _ _ hwf2
    intro st seg hwf'
    exact gridOcc_process_segment _ st.1 hwf' st.2 _ seg

lemma gridOcc_separator_update (s : Separator) (g : Grid) (hwf : g.dims_ok)
    (rng : Nat → Nat → Nat) :
    GridOcc g (s.update_particles_in_separator g rng) := by
  unfold Separator.update_particles_in_separator
  refine foldl_gridOcc (fun st : Grid × Nat => st.1) _ ?_ _ _ hwf
  intro st xy hwf'
  dsimp only
  split
  · exact gridOcc_move_particle st.1 hwf' xy.1 xy.2 _ _
  · exact GridOcc.refl _

lemma gridOcc_psg_update (p : PSG) (g : Grid) (hwf : g.dims_ok) :
    GridOcc g (p.update_particles_in_psg g).2 := by
  unfold PSG.update_particles_in_psg
  dsimp only
  split
  · exact GridOcc.refl g
  · refine foldl_gridOcc (fun st : PSG × Grid => st.2) _ ?_ _ _ hwf
    intro st y hwf'
    refine foldl_gridOcc (fun st : PSG × Grid => st.2) _ ?_ _ _ hwf'
    intro st' x hwf''
    dsimp only
    split
    · next particle hpart =>
        split
        · exact gridOcc_setCell_same_particle st'.2 _ _ particle _ rfl hpart
        · exact GridOcc.refl _
    · exact GridOcc.refl _

lemma gridOcc_receiver_update (r : Receiver) (g : Grid) (hwf : g.dims_ok) :
    GridOcc g (r.update_particles_in_receiver g).2 := by
  unfold Receiver.update_particles_in_receiver
  dsimp only
  split
  · exact GridOcc.refl g
  · refine foldl_gridOcc (fun st : Receiver × Grid => st.2) _ ?_ _ _ hwf
    intro st y hwf'
    refine foldl_gridOcc (fun st : Receiver × Grid => st.2) _ ?_ _ _ hwf'
    intro st' x hwf''
    dsimp only
    split
    · next particle hpart =>
        split
        · exact gridOcc_setCell_same_particle st'.2 _ _ particle _ rfl hpart
        · exact GridOcc.refl _
    · exact GridOcc.refl _

lemma apply_thermal_loss_pid (p : Particle) (a : Int) (f : Nat) :
    (p.apply_thermal_loss a f).pid = p.pid := by
  unfold Particle.apply_thermal_loss
  split
  · rfl
  · rfl

lemma gridOcc_thermal_row (sim : Simulation) (g : Grid) (hwf : g.dims_ok)
    (yi : Nat) : GridOcc g (sim.thermal_row g yi) := by
  unfold Simulation.thermal_row
  refine foldl_gridOcc (fun g : Grid => g) _ ?_ _ _ hwf
  intro g' xi hwf'
  dsimp only
  split
  · exact GridOcc.refl _
  · next particle hpart =>
      exact gridOcc_setCell_same_particle g' _ _ particle _
        (apply_thermal_loss_pid particle _ _) hpart

lemma gridOcc_thermal (sim : Simulation) (hwf : sim.grid.dims_ok) :
    GridOcc sim.grid sim.apply_thermal_losses.grid := by
  unfold Simulation.apply_thermal_losses
  dsimp only
  refine foldl_gridOcc (fun g : Grid => g) _ ?_ _ _ hwf
  intro g' yi hwf'
  exact gridOcc_thermal_row sim g' hwf' yi

lemma gridOcc_sweep_row (sim : Simulation) (rc : Int → Int → Nat) (g : Grid)
    (hwf : g.dims_ok) (yi : Nat) : GridOcc g (sim.sweep_row rc g yi) := by
  unfold Simulation.sweep_row
  refine foldl_gridOcc (fun g : Grid => g) _ ?_ _ _ hwf
  intro g' xi hwf'
  dsimp only
  split
  · exact gridOcc_update_particle g' hwf' _ _ _ _ _ _ _ _
  · exact GridOcc.refl _

lemma gridOcc_sweep (sim : Simulation) (rc : Int → Int → Nat)
    (hwf : sim.grid.dims_ok) : GridOcc sim.grid (sim.gravity_sweep rc) := by
  unfold Simulation.gravity_sweep
  refine foldl_gridOcc (fun g : Grid => g) _ ?_ _ _ hwf
  intro g' yi hwf'
  exact gridOcc_sweep_row sim rc g' hwf' yi

lemma gridOcc_thermal_sweep (sim : Simulation) (hwf : sim.grid.dims_ok)
    (rc : Int → Int → Nat) :
    GridOcc sim.grid (sim.apply_thermal_losses.gravity_sweep rc) :=
  (gridOcc_thermal sim hwf).trans
    (gridOcc_sweep sim.apply_thermal_losses rc
      ((gridOcc_thermal sim hwf).1.dims_ok_transfer hwf))

lemma gridOcc_update_physics (sim : Simulation) (hwf : sim.grid.dims_ok)
    (rc : Int → Int → Nat) (rs : Nat → Nat → Nat) :
    GridOcc sim.grid (sim.update_physics rc rs).grid := by
  unfold Simulation.update_physics
  dsimp only
  have o1 := gridOcc_lift_update sim.lift sim.grid hwf
  have w1 := o1.1.dims_ok_transfer hwf
  have o2 := gridOcc_separator_update sim.separator _ w1 rs
  have w2 := o2.1.dims_ok_transfer w1
  have o3 := gridOcc_psg_update sim.psg _ w2
  have w3 := o3.1.dims_ok_transfer w2
  have o4 := gridOcc_receiver_update sim.receiver _ w3
  have w4 := o4.1.dims_ok_transfer w3
  exact o1.trans (o2.trans (o3.trans (o4.trans
    (gridOcc_thermal_sweep _ w4 rc))))

/-!
## Claim theorems
-/

/-- C3 counterexample: cell (1, 1) of `gC3` is occupied, yet `place_particle`
returns `True` and overwrites the occupant — the claim says it must return
`False` and change nothing when the cell is occupied. -/
theorem C3_place_particle_counterexample :
    (gC3.cellAt 1 1).isSome = true ∧
    (gC3.place_particle pC3b 1 1).2 = true ∧
    (gC3.place_particle pC3b 1 1).1.cellAt 1 1 = some (pC3b.move_to 1 1) := by
  decide

/-- C3 amended: `place_particle` returns `False` (and changes nothing) exactly
when (x, y) is out of bounds; on an in-bounds cell it returns `True` and stores
the particle, overwriting any occupant. -/
theorem C3_place_particle_amended (g : Grid) (p : Particle) (x y : Int) :
    ((g.place_particle p x y).2 = true ↔ g.is_valid_position x y = true) ∧
    ((g.place_particle p x y).2 = true →
      (g.place_particle p x y).1 = g.setCell x y (some (p.move_to x y))) ∧
    ((g.place_particle p x y).2 = false → (g.place_particle p x y).1 = g) := by
  unfold Grid.place_particle
  split <;> simp_all

/-- C3 witness: the amended theorem applied at the occupied in-bounds cell. -/
theorem C3_place_particle_amended_witness :
    ((gC3.place_particle pC3b 1 1).2 = true ↔ gC3.is_valid_position 1 1 = true) ∧
    (gC3.place_particle pC3b 1 1).1 = gC3.setCell 1 1 (some (pC3b.move_to 1 1)) :=
  ⟨(C3_place_particle_amended gC3 pC3b 1 1).1,
   (C3_place_particle_amended gC3 pC3b 1 1).2.1 (by decide)⟩

/-- C4: `Grid.move_particle` succeeds exactly when both coordinates are in
bounds, the source is occupied and the destination empty; on success it moves
the particle updating its stored coordinates, on failure (including the no-op
move) the grid is unchanged. -/
theorem C4_move_particle (g : Grid) (hwf : g.dims_ok) (fx fy tx ty : Int) :
    ((g.move_particle fx fy tx ty).2 = true ↔
      (g.is_valid_position fx fy = true ∧ g.is_valid_position tx ty = true ∧
        (g.cellAt fx fy).isSome = true ∧ (g.cellAt tx ty).isNone = true)) ∧
    (∀ p, g.cellAt fx fy = some p → (g.move_particle fx fy tx ty).2 = true →
      ((g.move_particle fx fy tx ty).1.cellAt tx ty = some (p.move_to tx ty) ∧
       (g.move_particle fx fy tx ty).1.cellAt fx fy = none)) ∧
    ((g.move_particle fx fy tx ty).2 = false → (g.move_particle fx fy tx ty).1 = g) ∧
    ((g.move_particle fx fy fx fy).2 = false ∧ (g.move_particle fx fy fx fy).1 = g) := by
  refine ⟨move_particle_succ_iff g fx fy tx ty, ?_, move_particle_fail_eq g fx fy tx ty, ?_⟩
  · intro p hp hmove
    obtain ⟨hv1, hv2, hs, hd⟩ := (move_particle_succ_iff g fx fy tx ty).mp hmove
    have hdst : g.cellAt tx ty = none := Option.isNone_iff_eq_none.mp hd
    rw [move_particle_success g fx fy tx ty p hp hdst hv1 hv2]
    have hsrng := cellAt_isSome_range g fx fy (by rw [hp]; rfl)
    have hne : ¬(fy.toNat = ty.toNat ∧ fx.toNat = tx.toNat) := by
      rintro ⟨h1, h2⟩
      rw [cellAt_eq] at hp hdst
      rw [h1, h2] at hp
      rw [hp] at hdst
      exact Option.noConfusion hdst
    have htyn : ty.toNat < g.cells.length := by
      have := hwf.1
      simp only [Grid.is_valid_position, decide_eq_true_eq] at hv2
      omega
    have htxn : tx.toNat < (g.cells.getD ty.toNat []).length := by
      have hrow : (g.cells.getD ty.toNat []).length = g.width.toNat := by
        have hmem : g.cells.getD ty.toNat [] ∈ g.cells := by
          rw [List.getD_eq_getElem?_getD, List.getElem?_eq_getElem htyn]
          exact List.getElem_mem htyn
        exact hwf.2 _ hmem
      simp only [Grid.is_valid_position, decide_eq_true_eq] at hv2
      omega
    constructor
    · apply cellAt_setCell_self
      · simpa [Grid.setCell] using htyn
      · rw [setCell_row_length]; exact htxn
    · by_cases hy : ty.toNat = fy.toNat
      · have hx : tx.toNat ≠ fx.toNat := fun hx => hne ⟨hy.symm, hx.symm⟩
        rw [cellAt_setCell_col_ne _ _ _ _ _ _ hy hx]
        exact cellAt_setCell_self g fx fy none hsrng.1 hsrng.2
      · rw [cellAt_setCell_row_ne _ _ _ _ _ _ hy]
        exact cellAt_setCell_self g fx fy none hsrng.1 hsrng.2
  · have hiff := move_particle_succ_iff g fx fy fx fy
    have hfalse : (g.move_particle fx fy fx fy).2 = false := by
      rcases hb : (g.move_particle fx fy fx fy).2 with _ | _
      · rfl
      · obtain ⟨-, -, hs, hd⟩ := hiff.mp hb
        rw [Option.isNone_iff_eq_none.mp hd] at hs
        simp at hs
    exact ⟨hfalse, move_particle_fail_eq g fx fy fx fy hfalse⟩

/-- C4 witness: a successful concrete move and the no-op failure. -/
theorem C4_move_particle_witness :
    ((gC4.move_particle 1 1 1 2).2 = true ↔
      (gC4.is_valid_position 1 1 = true ∧ gC4.is_valid_position 1 2 = true ∧
        (gC4.cellAt 1 1).isSome = true ∧ (gC4.cellAt 1 2).isNone = true)) ∧
    ((gC4.move_particle 1 1 1 2).1.cellAt 1 2 = some ((pC4.move_to 1 1).move_to 1 2) ∧
     (gC4.move_particle 1 1 1 2).1.cellAt 1 1 = none) ∧
    ((gC4.move_particle 1 1 1 1).2 = false ∧ (gC4.move_particle 1 1 1 1).1 = gC4) :=
  ⟨(C4_move_particle gC4 (by decide) 1 1 1 2).1,
   (C4_move_particle gC4 (by decide) 1 1 1 2).2.1 (pC4.move_to 1 1) (by decide) (by decide),
   (C4_move_particle gC4 (by decide) 1 1 1 1).2.2.2⟩

/-- C5: one receiver update heats the 480-degree particle to exactly its
500-degree cap and adds exactly 20 (= min(heating_rate, max - temp), not 50)
to `total_heat_added`. -/
theorem C5_receiver_capped_heating :
    rcvC5.heating_rate = 50 ∧ pC5.max_temperature = 500 ∧
    rcvC5.total_heat_added = 0 ∧ rcvC5.is_inside 5 22 = true ∧
    (rcvC5.update_particles_in_receiver gC5).1.total_heat_added = 20 ∧
    (rcvC5.update_particles_in_receiver gC5).2.get_particle 5 22 =
      some { pC5 with temperature := 500 } := by
  decide

/-- C6: with straight-down blocked and both diagonals open, one gravity update
moves the particle to (4, 6) or (6, 6) — both reachable over the choice
oracle, and nothing else; with only the right diagonal open it takes it for
every choice; with no diagonal open the particle stays and the grid is
unchanged. -/
theorem C6_diagonal_fall :
    (∀ c : Nat, c < 2 →
      ((gC6both.update_particle 5 5 none none none none none c).2 = true ∧
       (gC6both.update_particle 5 5 none none none none none c).1.cellAt 5 5 = none ∧
       ((gC6both.update_particle 5 5 none none none none none c).1.cellAt 4 6 =
          some { pC6 with x := 4, y := 6 } ∨
        (gC6both.update_particle 5 5 none none none none none c).1.cellAt 6 6 =
          some { pC6 with x := 6, y := 6 }))) ∧
    (gC6both.update_particle 5 5 none none none none none 0).1.cellAt 4 6 =
        some { pC6 with x := 4, y := 6 } ∧
    (gC6both.update_particle 5 5 none none none none none 1).1.cellAt 6 6 =
        some { pC6 with x := 6, y := 6 } ∧
    (∀ c : Nat, c < 2 →
      ((gC6right.update_particle 5 5 none none none none none c).1.cellAt 6 6 =
          some { pC6 with x := 6, y := 6 } ∧
       (gC6right.update_particle 5 5 none none none none none c).1.cellAt 5 5 = none)) ∧
    (∀ c : Nat, gC6none.update_particle 5 5 none none none none none c = (gC6none, false)) := by
  refine ⟨?_, by decide, by decide, ?_, ?_⟩
  · intro c hc
    interval_cases c
    · exact ⟨by decide, by decide, Or.inl (by decide)⟩
    · exact ⟨by decide, by decide, Or.inr (by decide)⟩
  · intro c hc
    interval_cases c
    · exact ⟨by decide, by decide⟩
    · exact ⟨by decide, by decide⟩
  · intro c
    rfl

/-- C6 witness: the tie-break at choice 0 lands on the left diagonal. -/
theorem C6_diagonal_fall_witness :
    (gC6both.update_particle 5 5 none none none none none 0).2 = true ∧
    (gC6both.update_particle 5 5 none none none none none 0).1.cellAt 5 5 = none :=
  ⟨(C6_diagonal_fall.1 0 (by decide)).1, (C6_diagonal_fall.1 0 (by decide)).2.1⟩

/-- C7: the gravity update never relocates a particle whose cell lies inside
the lift footprint or the separator interior — it returns `False` and leaves
the cell array unchanged (only the PSG speed counters may be touched). -/
theorem C7_gravity_defers_in_lift_separator (g : Grid) (hb : Option HotBin)
    (cb : Option ColdBin) (l : Lift) (s : Separator) (psg : Option PSG)
    (x y : Int) (c : Nat)
    (h : l.is_inside_lift x y = true ∨ s.is_inside x y = true) :
    (g.update_particle x y hb cb (some l) (some s) psg c).2 = false ∧
    (g.update_particle x y hb cb (some l) (some s) psg c).1.cells = g.cells := by
  unfold Grid.update_particle
  split
  · exact ⟨rfl, rfl⟩
  · dsimp only
    split
    · exact ⟨rfl, slow_branch_cells g x y psg⟩
    · split
      · exact ⟨rfl, slow_branch_cells g x y psg⟩
      · next hnl =>
        split
        · exact ⟨rfl, slow_branch_cells g x y psg⟩
        · next hns =>
          rcases h with h | h
          · exact absurd h hnl
          · exact absurd h hns

/-- C7 witness: gravity at the lift cell (1, 1) does nothing. -/
theorem C7_gravity_defers_witness :
    (gC7.update_particle 1 1 none none (some liftC7) (some sepC7) none 0).2 = false ∧
    (gC7.update_particle 1 1 none none (some liftC7) (some sepC7) none 0).1.cells = gC7.cells :=
  C7_gravity_defers_in_lift_separator gC7 none none liftC7 sepC7 none 1 1 0
    (Or.inl (by decide))

/-- C8: inside the PSG slow zone every gravity check increments the particle's
counter; movement is allowed exactly when the incremented counter is a multiple
of `slow_factor`, and on the other ticks `update_particle` does nothing to the
cells; once the particle is checked outside the zone its counter entry is
deleted. -/
theorem C8_psg_slow_zone (g : Grid) (p : PSG) (x y : Int) (particle : Particle)
    (hp : g.get_particle x y = some particle) :
    (p.should_particle_move_slow x y = true →
      (lookupCounter (g.should_particle_move_slowly x y (some p)).1.psg_speed_counter
          particle.pid =
        some ((lookupCounter g.psg_speed_counter particle.pid).getD 0 + 1)) ∧
      ((g.should_particle_move_slowly x y (some p)).2 = true ↔
        ((lookupCounter g.psg_speed_counter particle.pid).getD 0 + 1) % p.slow_factor = 0) ∧
      ((g.should_particle_move_slowly x y (some p)).2 = false →
        ∀ hb cb l s c,
          (g.update_particle x y hb cb l s (some p) c).2 = false ∧
          (g.update_particle x y hb cb l s (some p) c).1.cells = g.cells)) ∧
    (p.should_particle_move_slow x y = false →
      lookupCounter (g.should_particle_move_slowly x y (some p)).1.psg_speed_counter
        particle.pid = none) := by
  have hv := (get_particle_some g x y particle hp).1
  have hcell := (get_particle_some g x y particle hp).2
  constructor
  · intro hin
    set c1 : Nat := (lookupCounter g.psg_speed_counter particle.pid).getD 0 + 1 with hc1
    have hred : g.should_particle_move_slowly x y (some p) =
        ({ g with psg_speed_counter := setCounter g.psg_speed_counter particle.pid c1 },
          c1 % p.slow_factor == 0) := by
      unfold Grid.should_particle_move_slowly
      dsimp only
      rw [if_pos hin, hp]
    refine ⟨?_, ?_, ?_⟩
    · rw [hred]
      exact lookupCounter_setCounter_self _ _ _
    · rw [hred]
      simp
    · intro hfalse hb cb l s c
      unfold Grid.update_particle
      rw [if_neg (by simp [hv, hcell])]
      dsimp only
      rw [if_pos (show (!(g.should_particle_move_slowly x y (some p)).2) = true by
        rw [hfalse]; rfl)]
      exact ⟨rfl, should_slow_cells g x y (some p)⟩
  · intro hnot
    unfold Grid.should_particle_move_slowly
    dsimp only
    rw [if_neg (by simp [hnot]), hp]
    exact lookupCounter_delCounter_self _ _

/-- C8 witness: the first in-zone check sets the particle's counter to 1. -/
theorem C8_psg_slow_zone_witness :
    lookupCounter (gC8.should_particle_move_slowly 2 15 (some psgC8)).1.psg_speed_counter 0 =
      some ((lookupCounter gC8.psg_speed_counter 0).getD 0 + 1) :=
  ((C8_psg_slow_zone gC8 psgC8 2 15 (pC8.move_to 2 15) (by decide)).1 (by decide)).1

/-- C10: `apply_thermal_loss` cools (by at most `loss`, floored at 0) and
records the frame exactly when at least 10 frames have passed since the last
application; otherwise the particle is unchanged. -/
theorem C10_thermal_loss_throttle (p : Particle) (loss : Int) (f : Nat)
    (h10 : p.thermal_loss_interval = 10) :
    ((10 : Int) ≤ (f : Int) - (p.last_thermal_loss_frame : Int) →
      p.apply_thermal_loss loss f =
        { p with temperature := max 0 (p.temperature - loss),
                 last_thermal_loss_frame := f }) ∧
    ((f : Int) - (p.last_thermal_loss_frame : Int) < 10 →
      p.apply_thermal_loss loss f = p) := by
  constructor
  · intro hle
    unfold Particle.apply_thermal_loss
    rw [if_pos (by rw [h10]; exact_mod_cast hle)]
    rfl
  · intro hlt
    unfold Particle.apply_thermal_loss
    rw [if_neg (by rw [h10]; omega)]

/-- C10 witness: at frame 15 with last application at frame 0 the particle
cools; at frame 9 it is untouched. -/
theorem C10_thermal_loss_throttle_witness :
    Particle.apply_thermal_loss { pid := 0, x := 0, y := 0, temperature := 7 } 5 15 =
      { pid := 0, x := 0, y := 0, temperature := 2, last_thermal_loss_frame := 15 } ∧
    Particle.apply_thermal_loss { pid := 0, x := 0, y := 0, temperature := 7 } 5 9 =
      { pid := 0, x := 0, y := 0, temperature := 7 } := by
  constructor
  · rw [(C10_thermal_loss_throttle { pid := 0, x := 0, y := 0, temperature := 7 } 5 15 rfl).1
      (by norm_num)]
    decide
  · exact (C10_thermal_loss_throttle { pid := 0, x := 0, y := 0, temperature := 7 } 5 9
      rfl).2 (by norm_num)

/-- C9: `separate_particle` only ever returns a free cell in the exit row
directly below the channel floor; it returns one whenever some exit column is
free (sequential fallback, never stranded); and in the concrete 3-free-columns
scenario one update relocates the single resident to one of exactly those
three columns, emptying its original cell, for every oracle. -/
theorem C9_separator_relocation :
    (∀ (s : Separator) (g : Grid) (draws : Nat → Nat) (nx ny : Int),
      s.separate_particle g draws = some (nx, ny) →
        ny = s.bottom_y + s.thickness ∧
        (g.is_valid_position nx ny && g.is_empty nx ny) = true) ∧
    (∀ (s : Separator) (g : Grid) (draws : Nat → Nat),
      (∃ nx ∈ (List.range s.distribution_width.toNat).map
          (fun o : Nat => s.distribution_start_x + (o : Int)),
        (g.is_valid_position nx (s.bottom_y + s.thickness) &&
          g.is_empty nx (s.bottom_y + s.thickness)) = true) →
      (s.separate_particle g draws).isSome = true) ∧
    (∀ rng : Nat → Nat → Nat, ∃ nx,
      nx ∈ ([47, 50, 52] : List Int) ∧
      sepC9.update_particles_in_separator gC9 rng =
        (gC9.move_particle 48 12 nx 15).1 ∧
      (sepC9.update_particles_in_separator gC9 rng).get_particle 48 12 = none ∧
      (sepC9.update_particles_in_separator gC9 rng).get_particle nx 15 =
        some { pC9 with x := nx, y := 15 }) := by
  refine ⟨fun s g draws nx ny h => ⟨(separate_particle_spec s g draws nx ny h).1,
      (separate_particle_spec s g draws nx ny h).2.1⟩,
    fun s g draws h => separate_particle_isSome s g draws h, ?_⟩
  intro rng
  have hres : sepC9.residents gC9 = [(48, 12)] := by decide
  unfold Separator.update_particles_in_separator
  rw [hres]
  simp only [List.foldl_cons, List.foldl_nil]
  cases hsep : sepC9.separate_particle gC9 (rng 0) with
  | none =>
      have hs := separate_particle_isSome sepC9 gC9 (rng 0) ⟨47, by decide, by decide⟩
      rw [hsep] at hs
      exact absurd hs (by simp)
  | some nxy =>
      obtain ⟨nx, ny⟩ := nxy
      obtain ⟨hspec1, hspec2, hspec3⟩ :=
        separate_particle_spec sepC9 gC9 (rng 0) nx ny hsep
      have hny : ny = 15 := by rw [hspec1]; decide
      subst hny
      have hmem8 := hspec3 (by decide)
      have hlist : (List.range sepC9.distribution_width.toNat).map
          (fun o : Nat => sepC9.distribution_start_x + (o : Int)) =
          [46, 47, 48, 49, 50, 51, 52, 53] := by decide
      rw [hlist] at hmem8
      simp only [List.mem_cons, List.not_mem_nil, or_false] at hmem8
      rcases hmem8 with rfl | rfl | rfl | rfl | rfl | rfl | rfl | rfl
      · exact absurd hspec2 (by decide)
      · exact ⟨47, by decide, by decide, by decide, by decide⟩
      · exact absurd hspec2 (by decide)
      · exact absurd hspec2 (by decide)
      · exact ⟨50, by decide, by decide, by decide, by decide⟩
      · exact absurd hspec2 (by decide)
      · exact ⟨52, by decide, by decide, by decide, by decide⟩
      · exact absurd hspec2 (by decide)

/-- C9 witness: the fallback finds a column and the resident's cell is
vacated for the constant-zero oracle. -/
theorem C9_separator_relocation_witness :
    (sepC9.separate_particle gC9 (fun _ => 0)).isSome = true ∧
    (sepC9.update_particles_in_separator gC9 (fun _ _ => 0)).get_particle 48 12 = none := by
  constructor
  · exact C9_separator_relocation.2.1 sepC9 gC9 (fun _ => 0) ⟨47, by decide, by decide⟩
  · obtain ⟨nx, -, -, h, -⟩ := C9_separator_relocation.2.2 (fun _ _ => 0)
    exact h

/-- C1 (code bug): lift conservation `entered - exited = residents` fails.
Starting from `simC1` (one particle resting one cell above the open cold-bin
floor, directly over the lift entry cell), one full `Simulation.update` drops
the particle into the lift entry cell (9, 59).  The lift's own counters never
move (`particles_entered = particles_exited = 0` before and after, so
`entered - exited = 0`), yet after the tick the lift holds one resident
particle: the in-transit count reported by `get_conservation_stats` is wrong
because entries are only counted by the throttled segment pass, not when
gravity moves a particle into the entry cell. -/
theorem C1_lift_conservation_broken :
    simC1.lift.particles_entered = 0 ∧ simC1.lift.particles_exited = 0 ∧
    simC1.lift.resident_count simC1.grid = 0 ∧
    (simC1.update rng0 rngS0).lift.particles_entered = 0 ∧
    (simC1.update rng0 rngS0).lift.particles_exited = 0 ∧
    ((simC1.update rng0 rngS0).grid.get_particle 9 59).isSome = true ∧
    (simC1.update rng0 rngS0).lift.is_inside_lift 9 59 = true ∧
    (simC1.update rng0 rngS0).lift.resident_count (simC1.update rng0 rngS0).grid = 1 := by
  have hstate : simC1.update rng0 rngS0 = { simC1b with grid := gC1 } := by
    rw [simC1_update_unfold, simC1_thermal_fixed, simC1_sweep_eq]
  rw [hstate]
  exact ⟨by decide, by decide, simC1_resident_count_zero, by decide, by decide, by decide, by decide, gC1_resident_count⟩

/-- C2: one physics tick never duplicates or loses a particle: the number of
cells holding any given particle identity is exactly preserved, so in
particular the at-most-one-cell-per-particle invariant is preserved (every
cell holds at most one particle by the grid representation itself). -/
theorem C2_exclusive_cell_ownership (sim : Simulation) (hwf : sim.grid.dims_ok)
    (rngChoice : Int → Int → Nat) (rngSep : Nat → Nat → Nat) :
    (∀ pid, (sim.update_physics rngChoice rngSep).grid.occCount pid =
      sim.grid.occCount pid) ∧
    (∀ pid, sim.grid.occCount pid ≤ 1 →
      (sim.update_physics rngChoice rngSep).grid.occCount pid ≤ 1) := by
  have h := gridOcc_update_physics sim hwf rngChoice rngSep
  exact ⟨h.2, fun pid hle => by rw [h.2 pid]; exact hle⟩

/-- C2 witness: the conservation theorem applied to a concrete state. -/
theorem C2_exclusive_cell_ownership_witness :
    (simC2w.update_physics rng0 rngS0).grid.occCount 0 =
      simC2w.grid.occCount 0 ∧
    (simC2w.update_physics rng0 rngS0).grid.occCount 0 ≤ 1 :=
  ⟨(C2_exclusive_cell_ownership simC2w (by decide) rng0 rngS0).1 0,
   (C2_exclusive_cell_ownership simC2w (by decide) rng0 rngS0).2 0 (by decide)⟩
